import Mathlib

/-!
# Coherent cross-section integration (COHXSecAR) and Fourier-Bessel form factors

A shallow embedding of

* `src/Physics/Coherent/XSection/COHXSecAR.cxx`
  (`Integrate`, `IntegratePion`, `IntegratePhoton`, `LoadConfig`),
* `src/Physics/Coherent/XSection/DeltaTransitionFormFactor.cxx` and
  `src/Physics/Coherent/XSection/FourierBesselFFCalculator.cxx` (`FormFactor`),
* `src/ReWeight/MCModel.cxx` (`UseXSecAlg`, `XSecAlg`, `BuildKey`, `Initialize`).

`double` is read as an exact field `α` (instantiated with `ℚ` to evaluate and with `ℝ`
for statements about `π`, `sin` and integrals).  The collaborators that the code only
calls (the cross-section model, the GSL function wrappers, the ROOT integrators, the
numerical constants of the framework) are parameters of the embedding.
-/

namespace genie

/-! ## Data model -/

/-- The two status bits of an `Interaction` that the integrator refers to
(`kISkipProcessChk`, `kISkipKinematicChk` of `Interaction.h`). -/
inductive InteractionBit where
  | kISkipProcessChk
  | kISkipKinematicChk
  deriving DecidableEq, Repr

/-- `Range1D_t`: a pair of limits. -/
structure Range1D_t (α : Type) where
  min : α
  max : α
  deriving DecidableEq, Repr

/-- The part of `KPhaseSpace` read by the integrator: `IsAboveThreshold()` and
`Limits(kKVy)`. -/
structure KPhaseSpace (α : Type) where
  IsAboveThreshold : Bool
  Limits_kKVy : Range1D_t α
  deriving DecidableEq, Repr

/-- The part of `InitialState` read by the integrator: `ProbeE(kRfLab)`. -/
structure InitialState (α : Type) where
  ProbeE_kRfLab : α
  deriving DecidableEq, Repr

/-- An `Interaction`: initial state, phase space and the two status bits. -/
structure Interaction (α : Type) where
  InitState : InitialState α
  PhaseSpace : KPhaseSpace α
  skipProcessChk : Bool
  skipKinematicChk : Bool
  deriving DecidableEq, Repr

/-- `TObject::SetBit(f)`: switch one status bit on, leave everything else as it is. -/
def Interaction.SetBit {α : Type} (i : Interaction α) : InteractionBit → Interaction α
  | .kISkipProcessChk => { i with skipProcessChk := true }
  | .kISkipKinematicChk => { i with skipKinematicChk := true }

/-- `TObject::TestBit(f)`. -/
def Interaction.TestBit {α : Type} (i : Interaction α) : InteractionBit → Bool
  | .kISkipProcessChk => i.skipProcessChk
  | .kISkipKinematicChk => i.skipKinematicChk

/-- The interface `XSecAlgorithmI` of a cross-section model, as far as the integrator and
the function wrappers use it. -/
structure XSecAlgorithmI (α : Type) where
  ValidProcess : Interaction α → Bool
  XSec : Interaction α → α

/-- `ROOT::Math::IntegrationOneDim::Type`. -/
inductive IntegrationOneDimType where
  | kDEFAULT | kGAUSS | kLEGENDRE | kADAPTIVE | kADAPTIVESINGULAR | kNONADAPTIVE
  deriving DecidableEq, Repr

/-- `ROOT::Math::IntegrationMultiDim::Type`. -/
inductive IntegrationMultiDimType where
  | kDEFAULT | kADAPTIVE | kVEGAS | kMISER | kPLAIN
  deriving DecidableEq, Repr

/-- Numerical constants of the framework that the code refers to (`constants::kPi`,
`controls::kASmallNum`, `units::cm2`, `units::fm`); their declarations are outside the
embedded sources, so they are parameters. -/
structure Conventions (α : Type) where
  kPi : α
  kASmallNum : α
  cm2 : α
  fm : α

/-- The function objects of `GSLXSecFunc.h` and the helper of `GSLUtils.h` that the
integrator instantiates; each wrapper is closed over the model and the interaction it is
given and is then a numerical function of one or of four variables. -/
structure GSLXSecFunc (α : Type) where
  dXSec_dElep_AR_pion :
    XSecAlgorithmI α → Interaction α → String → α → Nat → α → α
  d4Xsec_dEldThetaldOmegapi : XSecAlgorithmI α → Interaction α → List α → α
  d5Xsec_dEgdOmegaldOmegag : XSecAlgorithmI α → Interaction α → List α → α
  d4Xsec_dEgdThetaldThetagdPhig : XSecAlgorithmI α → Interaction α → List α → α
  IntegrationNDimTypeFromString : String → IntegrationMultiDimType

/-- The quadrature routines of ROOT:
`Integrator(f, type, abstol, reltol, size, rule).Integral(a, b)` and
`IntegratorMultiDim(f, type, abstol, reltol, maxeval).Integral(xmin, xmax)`. -/
structure ROOTMath (α : Type) where
  Integrator :
    (α → α) → IntegrationOneDimType → α → α → Nat → Nat → α → α → α
  IntegratorMultiDim :
    (List α → α) → IntegrationMultiDimType → α → α → Nat → List α → List α → α

/-- The data members of `COHXSecAR`. -/
structure COHXSecAR (α : Type) where
  fGSLIntgType : String
  fGSLRelTol : α
  fGSLMaxEval : Nat
  fSplitIntegral : Bool
  fOmegaIntegral : Bool
  fHasPion : Bool
  fHasPhoton : Bool
  deriving DecidableEq, Repr

/-- The configuration registry read by `LoadConfig`: one optional entry per key. -/
structure Registry (α : Type) where
  gsl_integration_type : Option String
  gsl_max_eval : Option Int
  gsl_relative_tolerance : Option α
  split_integral : Option Bool
  IsCOHPion : Option Bool
  IsCOHGamma : Option Bool
  OmegaPhaseSpace : Option Bool
  deriving DecidableEq, Repr

/-- Modelled from the spec: `Algorithm::GetParamDef` is not among the embedded sources;
it yields the configured value of a key, or the given default when the key is absent. -/
def GetParamDef {β : Type} (entry : Option β) (dflt : β) : β :=
  entry.getD dflt

/-- Modelled from the spec: `controls::kASmallNum` is declared in `Controls.h`, which is
not among the embedded sources; the spec describes it as a small positive guard constant
that keeps the angular limits off the exact boundaries, and the value `1E-6` is taken for
it. -/
def controls.kASmallNum {α : Type} [Field α] : α := 1e-6

/-- Modelled from the spec: the constants of the framework with the guard constant at
its modelled value `controls.kASmallNum`; the circle constant `kPi` and the unit constants
`cm2` and `fm` are given. -/
def guardedConventions {α : Type} [Field α] (kPi cm2 fm : α) : Conventions α :=
  { kPi := kPi, kASmallNum := controls.kASmallNum, cm2 := cm2, fm := fm }

/-! ## `COHXSecAR` -/

section Integrator

variable {α : Type} [Field α]

/-- The private copy of the caller's interaction made by `IntegratePion`
(`new Interaction(*in)` followed by `SetBit(kISkipProcessChk)`; the line setting
`kISkipKinematicChk` is commented out in the source). -/
def IntegratePion_interaction (inter : Interaction α) : Interaction α :=
  let interaction := inter
  interaction.SetBit .kISkipProcessChk

/-- The private copy made by `IntegratePhoton` (`Interaction interaction(*in)` followed
by `SetBit(kISkipProcessChk)`; the `kISkipKinematicChk` line is commented out). -/
def IntegratePhoton_interaction (inter : Interaction α) : Interaction α :=
  let interaction := inter
  interaction.SetBit .kISkipProcessChk

/-- The lepton-energy limits `(Elep_min, Elep_max)` of `IntegratePion`. -/
def IntegratePion_Elep (inter : Interaction α) : α × α :=
  let y_lim := inter.PhaseSpace.Limits_kKVy
  let Enu := inter.InitState.ProbeE_kRfLab
  let Elep_min := (1 - y_lim.max) * Enu
  let Elep_max := (1 - y_lim.min) * Enu
  (Elep_min, Elep_max)

/-- The arrays `(kine_min, kine_max)` of the four-dimensional branch of
`IntegratePion`. -/
def IntegratePion_kine (K : Conventions α) (inter : Interaction α) : List α × List α :=
  let Elep_min := (IntegratePion_Elep inter).1
  let Elep_max := (IntegratePion_Elep inter).2
  let zero := K.kASmallNum
  let pi := K.kPi - K.kASmallNum
  let twopi := 2 * K.kPi - K.kASmallNum
  ([Elep_min, zero, zero, zero], [Elep_max, pi, pi, twopi])

/-- The arrays `(kine_min, kine_max)` of `IntegratePhoton`. -/
def IntegratePhoton_kine (K : Conventions α) (self : COHXSecAR α) (inter : Interaction α) :
    List α × List α :=
  let Enu := inter.InitState.ProbeE_kRfLab
  let Egamma_min : α := 0
  let Egamma_max := Enu
  let zero := K.kASmallNum
  let pi := K.kPi - K.kASmallNum
  let twopi := 2 * K.kPi - K.kASmallNum
  let min_theta := if self.fOmegaIntegral then -1 else zero
  let max_theta := if self.fOmegaIntegral then 1 else pi
  ([Egamma_min, min_theta, min_theta, zero], [Egamma_max, max_theta, max_theta, twopi])

/-- `COHXSecAR::IntegratePion`. -/
def IntegratePion (K : Conventions α) (G : GSLXSecFunc α) (R : ROOTMath α)
    (self : COHXSecAR α) (model : XSecAlgorithmI α) (inter : Interaction α) : α :=
  if !model.ValidProcess inter then 0
  else
    let kps := inter.PhaseSpace
    if !kps.IsAboveThreshold then 0
    else
      let Elep_min := (IntegratePion_Elep inter).1
      let Elep_max := (IntegratePion_Elep inter).2
      let interaction := IntegratePion_interaction inter
      if self.fSplitIntegral then
        let func := G.dXSec_dElep_AR_pion model interaction self.fGSLIntgType
          self.fGSLRelTol self.fGSLMaxEval
        let ig_type := IntegrationOneDimType.kADAPTIVE
        let abstol : α := 1
        let size := 1000
        let rule := 2
        R.Integrator func ig_type abstol self.fGSLRelTol size rule Elep_min Elep_max
          * (1e-38 * K.cm2)
      else
        let func := G.d4Xsec_dEldThetaldOmegapi model interaction
        let kine_min := (IntegratePion_kine K inter).1
        let kine_max := (IntegratePion_kine K inter).2
        let ig_type := G.IntegrationNDimTypeFromString self.fGSLIntgType
        let abstol : α := 1
        R.IntegratorMultiDim func ig_type abstol self.fGSLRelTol self.fGSLMaxEval
          kine_min kine_max * (1e-38 * K.cm2)

/-- `COHXSecAR::IntegratePhoton`. -/
def IntegratePhoton (K : Conventions α) (G : GSLXSecFunc α) (R : ROOTMath α)
    (self : COHXSecAR α) (model : XSecAlgorithmI α) (inter : Interaction α) : α :=
  if !model.ValidProcess inter then 0
  else
    let kps := inter.PhaseSpace
    if !kps.IsAboveThreshold then 0
    else
      let interaction := IntegratePhoton_interaction inter
      let func :=
        if self.fOmegaIntegral then G.d5Xsec_dEgdOmegaldOmegag model interaction
        else G.d4Xsec_dEgdThetaldThetagdPhig model interaction
      let kine_min := (IntegratePhoton_kine K self inter).1
      let kine_max := (IntegratePhoton_kine K self inter).2
      let ig_type := G.IntegrationNDimTypeFromString self.fGSLIntgType
      let abstol : α := 1
      let xsec := R.IntegratorMultiDim func ig_type abstol self.fGSLRelTol
        self.fGSLMaxEval kine_min kine_max * (1e-38 * K.cm2)
      if self.fOmegaIntegral then xsec * (2 * K.kPi) else xsec

/-- `COHXSecAR::Integrate`. -/
def Integrate (K : Conventions α) (G : GSLXSecFunc α) (R : ROOTMath α)
    (self : COHXSecAR α) (model : XSecAlgorithmI α) (inter : Interaction α) : α :=
  if self.fHasPion then IntegratePion K G R self model inter
  else if self.fHasPhoton then IntegratePhoton K G R self model inter
  else 0

/-- `COHXSecAR::LoadConfig`, run on the object `self` with the registry `cfg`:
`Except.ok` is the object after a normal return, `Except.error n` is `exit(n)`. -/
def LoadConfig (cfg : Registry α) (self : COHXSecAR α) : Except Nat (COHXSecAR α) :=
  let fGSLIntgType := GetParamDef cfg.gsl_integration_type "vegas"
  let max_eval : Int := GetParamDef cfg.gsl_max_eval 4000
  let fGSLMaxEval := (max_eval % 2 ^ 32).toNat
  let fGSLRelTol := GetParamDef cfg.gsl_relative_tolerance 0.01
  let fSplitIntegral := GetParamDef cfg.split_integral true
  let fHasPion := GetParamDef cfg.IsCOHPion false
  let fHasPhoton := GetParamDef cfg.IsCOHGamma false
  let fOmegaIntegral :=
    if fHasPhoton then GetParamDef cfg.OmegaPhaseSpace true else self.fOmegaIntegral
  let error := false
  let error := if !fHasPion && !fHasPhoton then true else error
  let error := if fHasPion && fHasPhoton then true else error
  if error then Except.error 78
  else Except.ok
    { fGSLIntgType := fGSLIntgType
      fGSLRelTol := fGSLRelTol
      fGSLMaxEval := fGSLMaxEval
      fSplitIntegral := fSplitIntegral
      fOmegaIntegral := fOmegaIntegral
      fHasPion := fHasPion
      fHasPhoton := fHasPhoton }

end Integrator

/-! ## Fourier-Bessel form factors -/

section FormFactor

variable {α : Type} [Field α] [DecidableEq α]

/-- Division of two `double`s read over the exact field: a zero divisor has no quotient
in the field (IEEE arithmetic yields a NaN or an infinity there, and none of the
operations of `FormFactor` turns either back into a finite number). -/
def fdiv (a b : α) : Option α :=
  if b = 0 then none else some (a / b)

/-- The data members of `DeltaTransitionFormFactor` (`fRadius` is stored multiplied by
`units::fm`, see its `LoadConfig`). -/
structure DeltaTransitionFormFactor (α : Type) where
  fFBCs : List α
  fRadius : α
  fPDG : Int

/-- The data members of `DeVriesFormFactor` read by its `FormFactor`. -/
structure DeVriesFormFactor (α : Type) where
  fFBCs : List α
  fRadius : α

/-- The `for` loop of `DeltaTransitionFormFactor::FormFactor`, from index `i` on, with
the coefficients `fFBCs[i], fFBCs[i+1], ...` still to be visited. -/
def DeltaTransitionFormFactor.loop (kPi qr : α) : List α → Nat → α → Option α
  | [], _, aux_sum => some aux_sum
  | c :: rest, i, aux_sum =>
    let nu : α := (i : α) + 1
    let pi_x_i := kPi * nu
    match fdiv ((-1) ^ i * c) ((pi_x_i + qr) * (pi_x_i - qr)) with
    | none => none
    | some term => DeltaTransitionFormFactor.loop kPi qr rest (i + 1) (aux_sum + term)

/-- `DeltaTransitionFormFactor::FormFactor`. -/
def DeltaTransitionFormFactor.FormFactor (kPi : α) (sin : α → α) (fm : α)
    (self : DeltaTransitionFormFactor α) (Q : α) : Option α :=
  let qr := Q * self.fRadius
  match DeltaTransitionFormFactor.loop kPi qr self.fFBCs 0 0 with
  | none => none
  | some aux_sum =>
    match fdiv self.fRadius fm, fdiv (sin qr) qr with
    | some r, some s => some (4 * kPi * r ^ 3 * aux_sum * s)
    | _, _ => none

/-- The `for` loop of `DeVriesFormFactor::FormFactor`. -/
def DeVriesFormFactor.loop (kPi qr : α) : List α → Nat → α → Option α
  | [], _, aux_sum => some aux_sum
  | c :: rest, i, aux_sum =>
    let nu : α := (i : α) + 1
    let pi_x_i := kPi * nu
    match fdiv ((-1) ^ i * c) ((pi_x_i + qr) * (pi_x_i - qr)) with
    | none => none
    | some term => DeVriesFormFactor.loop kPi qr rest (i + 1) (aux_sum + term)

/-- `DeVriesFormFactor::FormFactor`. -/
def DeVriesFormFactor.FormFactor (kPi : α) (sin : α → α) (fm : α)
    (self : DeVriesFormFactor α) (Q : α) : Option α :=
  let qr := Q * self.fRadius
  match DeVriesFormFactor.loop kPi qr self.fFBCs 0 0 with
  | none => none
  | some aux_sum =>
    match fdiv self.fRadius fm, fdiv (sin qr) qr with
    | some r, some s => some (4 * kPi * r ^ 3 * aux_sum * s)
    | _, _ => none

/-- The series of the specification, in its own words and with its 1-based indices:
`Σ_{i=1..N} (-1)^(i-1) * c_i / ((iπ + qr)(iπ - qr))`, where `c_i` is the `i`-th
coefficient. -/
def specSeries (kPi : α) (c : List α) (qr : α) : α :=
  ∑ i in Finset.Icc 1 c.length,
    (-1) ^ (i - 1) * c.getD (i - 1) 0 / (((i : α) * kPi + qr) * ((i : α) * kPi - qr))

/-- The form factor of the specification:
`4π (radius/fm)^3 * sum * sin(qr)/qr` with `qr = Q * radius`. -/
def specFormFactor (kPi : α) (sin : α → α) (fm : α) (c : List α) (radius Q : α) : α :=
  4 * kPi * (radius / fm) ^ 3 * specSeries kPi c (Q * radius)
    * sin (Q * radius) / (Q * radius)

/-- The value the specification gives at `Q = 0`:
`4π (radius/fm)^3 * Σ (-1)^(i-1) c_i / (iπ)^2`. -/
def specFormFactorAtZero (kPi : α) (fm : α) (c : List α) (radius : α) : α :=
  4 * kPi * (radius / fm) ^ 3 *
    ∑ i in Finset.Icc 1 c.length, (-1) ^ (i - 1) * c.getD (i - 1) 0 / ((i : α) * kPi) ^ 2

end FormFactor

/-! ## `MCModel` -/

section MCModelDefs

/-- `AlgId`: the name and the configuration of an algorithm. -/
structure AlgId where
  Name : String
  Config : String
  deriving DecidableEq, Repr

/-- What `MCModel` uses of the classes `ProcessInfo` (values of `P`) and `InitialState`
(values of `S`), which are declared outside the embedded sources: their `AsString()`. -/
structure Descriptions (P S : Type) where
  procAsString : P → String
  initAsString : S → String

/-- The part of an `Interaction` read by `MCModel::XSecAlg`: `GetProcessInfo()` and
`GetInitialState()`. -/
structure InteractionSummary (P S : Type) where
  GetProcessInfo : P
  GetInitialState : S

/-- `map<string, const XSecAlgorithmI *>`: the entries of the map, with pairwise distinct
keys; a pointer is an `Option`, `none` being the null pointer. -/
abbrev XSecModelMap (A : Type) : Type := List (String × Option A)

/-- `std::map::find`: the entry with the given key, if there is one. -/
def XSecModelMap.find {A : Type} (m : XSecModelMap A) (key : String) :
    Option (String × Option A) :=
  List.find? (fun e => e.1 == key) m

/-- `std::map::count`: 1 when the key is in the map, 0 when it is not. -/
def XSecModelMap.count {A : Type} (m : XSecModelMap A) (key : String) : Nat :=
  if (m.find key).isSome then 1 else 0

/-- `std::map::insert`: add the entry unless its key is already in the map, in which
case the map is left as it is. -/
def XSecModelMap.insert {A : Type} (m : XSecModelMap A) (e : String × Option A) :
    XSecModelMap A :=
  if m.count e.1 = 1 then m else m ++ [e]

/-- The data members of `MCModel`. -/
structure MCModel (A : Type) where
  fName : String
  fXSecModelList : XSecModelMap A

/-- `MCModel::Initialize`. -/
def MCModel.Initialize {A : Type} (self : MCModel A) : MCModel A :=
  { self with fXSecModelList := [] }

/-- `MCModel::MCModel(string name)`. -/
def MCModel.new {A : Type} (name : String) : MCModel A :=
  MCModel.Initialize { fName := name, fXSecModelList := [] }

/-- `MCModel::BuildKey(proc)`. -/
def MCModel.BuildKey {P S : Type} (D : Descriptions P S) (proc : P) : String :=
  "PROC:" ++ D.procAsString proc

/-- `MCModel::BuildKey(proc, init)`. -/
def MCModel.BuildKey_init {P S : Type} (D : Descriptions P S) (proc : P) (init : S) :
    String :=
  "PROC:" ++ D.procAsString proc ++ ";INIT:" ++ D.initAsString init

/-- `MCModel::UseXSecAlg(proc, algid)`; `GetAlgorithm` is the lookup of the algorithm
factory followed by the `dynamic_cast` to `const XSecAlgorithmI *`. -/
def MCModel.UseXSecAlg {P S A : Type} (D : Descriptions P S) (GetAlgorithm : AlgId → Option A)
    (self : MCModel A) (proc : P) (algid : AlgId) : MCModel A :=
  let alg := GetAlgorithm algid
  let key := MCModel.BuildKey D proc
  { self with fXSecModelList := self.fXSecModelList.insert (key, alg) }

/-- `MCModel::UseXSecAlg(proc, init, algid)`. -/
def MCModel.UseXSecAlg_init {P S A : Type} (D : Descriptions P S)
    (GetAlgorithm : AlgId → Option A)
    (self : MCModel A) (proc : P) (init : S) (algid : AlgId) : MCModel A :=
  let alg := GetAlgorithm algid
  let key := MCModel.BuildKey_init D proc init
  { self with fXSecModelList := self.fXSecModelList.insert (key, alg) }

/-- `MCModel::XSecAlg`. -/
def MCModel.XSecAlg {P S A : Type} (D : Descriptions P S) (self : MCModel A)
    (interaction : InteractionSummary P S) : Option A :=
  let proc := interaction.GetProcessInfo
  let init := interaction.GetInitialState
  let key := MCModel.BuildKey_init D proc init
  if self.fXSecModelList.count key = 1 then
    match self.fXSecModelList.find key with
    | some iter => iter.2
    | none => none
  else
    let key := MCModel.BuildKey D proc
    if self.fXSecModelList.count key = 1 then
      match self.fXSecModelList.find key with
      | some iter => iter.2
      | none => none
    else none

/-- One call of `UseXSecAlg`: for a process alone, or for a process and an initial
state. -/
inductive Registration (P S : Type) where
  | forProc (proc : P) (algid : AlgId)
  | forProcInit (proc : P) (init : S) (algid : AlgId)

/-- The call of `UseXSecAlg` a registration stands for. -/
def Registration.run {P S A : Type} (D : Descriptions P S) (GetAlgorithm : AlgId → Option A)
    (self : MCModel A) : Registration P S → MCModel A
  | .forProc proc algid => MCModel.UseXSecAlg D GetAlgorithm self proc algid
  | .forProcInit proc init algid => MCModel.UseXSecAlg_init D GetAlgorithm self proc init algid

/-- A sequence of calls of `UseXSecAlg`, first to last. -/
def MCModel.register {P S A : Type} (D : Descriptions P S) (GetAlgorithm : AlgId → Option A)
    (self : MCModel A) (regs : List (Registration P S)) : MCModel A :=
  regs.foldl (Registration.run D GetAlgorithm) self

/-- The key a registration inserts. -/
def Registration.key {P S : Type} (D : Descriptions P S) : Registration P S → String
  | .forProc proc _ => MCModel.BuildKey D proc
  | .forProcInit proc init _ => MCModel.BuildKey_init D proc init

/-- The algorithm a registration inserts. -/
def Registration.alg {P S A : Type} (GetAlgorithm : AlgId → Option A) :
    Registration P S → Option A
  | .forProc _ algid => GetAlgorithm algid
  | .forProcInit _ _ algid => GetAlgorithm algid

/-- The algorithm of the first registration made for the pair `(p, s)`, if any. -/
def firstForProcInit {P S A : Type} [DecidableEq P] [DecidableEq S]
    (GetAlgorithm : AlgId → Option A) (regs : List (Registration P S)) (p : P) (s : S) :
    Option (Option A) :=
  regs.findSome? fun r =>
    match r with
    | .forProcInit proc init algid =>
      if proc = p ∧ init = s then some (GetAlgorithm algid) else none
    | .forProc _ _ => none

/-- The algorithm of the first registration made for the process `p` alone, if any. -/
def firstForProc {P S A : Type} [DecidableEq P]
    (GetAlgorithm : AlgId → Option A) (regs : List (Registration P S)) (p : P) :
    Option (Option A) :=
  regs.findSome? fun r =>
    match r with
    | .forProc proc algid => if proc = p then some (GetAlgorithm algid) else none
    | .forProcInit _ _ _ => none

/-- The lookup precedence in words: the first algorithm registered for the pair
`(p, s)` if there is one, otherwise the first registered for `p` alone, otherwise the
null pointer. -/
def lookupPrecedence {P S A : Type} [DecidableEq P] [DecidableEq S]
    (GetAlgorithm : AlgId → Option A) (regs : List (Registration P S)) (p : P) (s : S) :
    Option A :=
  match firstForProcInit GetAlgorithm regs p s with
  | some alg => alg
  | none =>
    match firstForProc GetAlgorithm regs p with
    | some alg => alg
    | none => none

/-- Sample process descriptions. -/
inductive SampleProc where
  | cohCC | cohNC
  deriving DecidableEq, Repr

/-- Sample initial states. -/
inductive SampleInit where
  | numuC12 | numuAr40
  deriving DecidableEq, Repr

/-- The strings of the sample descriptions. -/
def sampleDescriptions : Descriptions SampleProc SampleInit :=
  { procAsString := fun p => match p with
      | .cohCC => "COH-CC"
      | .cohNC => "COH-NC"
    initAsString := fun s => match s with
      | .numuC12 => "nu-pdg:14;tgt-pdg:1000060120"
      | .numuAr40 => "nu-pdg:14;tgt-pdg:1000180400" }

/-- A sample algorithm factory: the algorithm is its identifier, and the factory has no
algorithm of the name `none`. -/
def sampleFactory (algid : AlgId) : Option AlgId :=
  if algid.Name = "none" then none else some algid

/-- A sample sequence of registrations. -/
def sampleRegistrations : List (Registration SampleProc SampleInit) :=
  [ .forProc .cohCC ⟨"genie::ReinSehgalCOHPiPXSec", "Default"⟩
  , .forProcInit .cohCC .numuC12 ⟨"genie::BergerSehgalCOHPiPXSec2015", "Default"⟩
  , .forProcInit .cohCC .numuC12 ⟨"genie::AlvarezRusoCOHPiPXSec", "Default"⟩
  , .forProc .cohCC ⟨"genie::AlvarezRusoCOHPiPXSec", "Default"⟩ ]

end MCModelDefs

/-! ## Sample collaborators used to evaluate the embedding -/

section Samples

/-- The process status a run of `LoadConfig` ends with: `none` after a normal return,
`some n` after `exit(n)`. -/
def exitStatus {β : Type} : Except Nat β → Option Nat
  | .ok _ => none
  | .error n => some n

/-- Sample constants: `kASmallNum = 1E-6` and the natural-unit values of a centimetre
squared and of a fermi, around a given value of `kPi`. -/
def sampleConventions {α : Type} [Field α] (kPi : α) : Conventions α :=
  { kPi := kPi, kASmallNum := 1e-6, cm2 := 5.07e13 ^ 2, fm := 5.07 }

/-- A model that accepts every process and whose differential cross section is the
constant 1. -/
def unitModel {α : Type} [Field α] : XSecAlgorithmI α :=
  { ValidProcess := fun _ => true, XSec := fun _ => 1 }

/-- A model that rejects every process. -/
def rejectingModel {α : Type} [Field α] : XSecAlgorithmI α :=
  { ValidProcess := fun _ => false, XSec := fun _ => 1 }

/-- Function wrappers that evaluate the model on the interaction they are closed over,
whatever the integration point; unrecognised type strings resolve to `kADAPTIVE`. -/
def plainWrappers {α : Type} [Field α] : GSLXSecFunc α :=
  { dXSec_dElep_AR_pion := fun model interaction _ _ _ _ => model.XSec interaction
    d4Xsec_dEldThetaldOmegapi := fun model interaction _ => model.XSec interaction
    d5Xsec_dEgdOmegaldOmegag := fun model interaction _ => model.XSec interaction
    d4Xsec_dEgdThetaldThetagdPhig := fun model interaction _ => model.XSec interaction
    IntegrationNDimTypeFromString := fun s =>
      if s = "vegas" then .kVEGAS else if s = "miser" then .kMISER
      else if s = "plain" then .kPLAIN else .kADAPTIVE }

/-- A one-point quadrature: the value of the integrand at the lower corner times the
volume of the box; it is exact on constant integrands. -/
def cornerRule {α : Type} [Field α] : ROOTMath α :=
  { Integrator := fun f _ _ _ _ _ a b => f a * (b - a)
    IntegratorMultiDim := fun f _ _ _ _ lo hi =>
      f lo * ((List.zipWith (fun a b => b - a) lo hi).prod) }

/-- A sample interaction: probe energy `E`, inelasticity limits `[ymin, ymax]`, the
given threshold status, no status bit set. -/
def sampleInteraction {α : Type} (E ymin ymax : α) (above : Bool) : Interaction α :=
  { InitState := { ProbeE_kRfLab := E }
    PhaseSpace := { IsAboveThreshold := above, Limits_kKVy := { min := ymin, max := ymax } }
    skipProcessChk := false
    skipKinematicChk := false }

/-- A `COHXSecAR` object with the default numerical settings and the given flags. -/
def sampleIntegrator {α : Type} [Field α] (split omega pion photon : Bool) : COHXSecAR α :=
  { fGSLIntgType := "vegas", fGSLRelTol := 0.01, fGSLMaxEval := 4000
    fSplitIntegral := split, fOmegaIntegral := omega, fHasPion := pion, fHasPhoton := photon }

/-- An empty registry: every key takes its default. -/
def emptyRegistry {α : Type} : Registry α :=
  { gsl_integration_type := none, gsl_max_eval := none, gsl_relative_tolerance := none
    split_integral := none, IsCOHPion := none, IsCOHGamma := none, OmegaPhaseSpace := none }

/-- Function wrappers that report a status bit of the interaction they are closed over:
1 when the bit is set, 0 when it is not. -/
def bitProbeWrappers {α : Type} [Field α] (b : InteractionBit) : GSLXSecFunc α :=
  { dXSec_dElep_AR_pion := fun _ interaction _ _ _ _ => if interaction.TestBit b then 1 else 0
    d4Xsec_dEldThetaldOmegapi := fun _ interaction _ => if interaction.TestBit b then 1 else 0
    d5Xsec_dEgdOmegaldOmegag := fun _ interaction _ => if interaction.TestBit b then 1 else 0
    d4Xsec_dEgdThetaldThetagdPhig := fun _ interaction _ =>
      if interaction.TestBit b then 1 else 0
    IntegrationNDimTypeFromString := fun _ => .kADAPTIVE }

/-- A stand-in for the quadrature that reports the lower limit of the `k`-th integration
variable it is given. -/
def lowerLimitProbe {α : Type} [Field α] (k : Nat) : ROOTMath α :=
  { Integrator := fun _ _ _ _ _ _ a _ => a
    IntegratorMultiDim := fun _ _ _ _ _ lo _ => lo.getD k 0 }

/-- The summand the loops of `FormFactor` add at the 0-based index `n` for the
coefficient `c`. -/
def loopTerm {α : Type} [Field α] (kPi qr : α) (n : Nat) (c : α) : α :=
  (-1) ^ n * c / ((kPi * ((n : α) + 1) + qr) * (kPi * ((n : α) + 1) - qr))

end Samples

/-! ## Theorems -/

section IntegratorTheorems

variable {α : Type} [Field α]

/-- C1: when the phase space of the interaction reports `IsAboveThreshold() = false`,
`Integrate` returns exactly 0, for every model, every configuration of the integrator,
every set of function wrappers and every quadrature routine. -/
theorem Integrate_below_threshold (K : Conventions α) (G : GSLXSecFunc α) (R : ROOTMath α)
    (self : COHXSecAR α) (model : XSecAlgorithmI α) (inter : Interaction α)
    (hthr : inter.PhaseSpace.IsAboveThreshold = false) :
    Integrate K G R self model inter = 0 := by
  unfold Integrate IntegratePion IntegratePhoton
  simp [hthr]

/-- Witness of C1: a pion configuration, the unit model, probe energy 1.8, below
threshold. -/
theorem Integrate_below_threshold_witness :
    (sampleInteraction (1.8 : ℚ) 0 1 false).PhaseSpace.IsAboveThreshold = false ∧
    Integrate (sampleConventions (3.1415927 : ℚ)) plainWrappers cornerRule
      (sampleIntegrator true true true false) unitModel
      (sampleInteraction (1.8 : ℚ) 0 1 false) = 0 :=
  ⟨rfl, Integrate_below_threshold _ _ _ _ _ _ rfl⟩

/-- C2: when the model reports the process invalid, `IntegratePion` and
`IntegratePhoton` both return exactly 0, whatever the threshold status, the function
wrappers (hence the model's `XSec`) and the quadrature routine. -/
theorem Integrate_invalid_process (K : Conventions α) (G : GSLXSecFunc α) (R : ROOTMath α)
    (self : COHXSecAR α) (model : XSecAlgorithmI α) (inter : Interaction α)
    (hinv : model.ValidProcess inter = false) :
    IntegratePion K G R self model inter = 0 ∧
    IntegratePhoton K G R self model inter = 0 := by
  unfold IntegratePion IntegratePhoton
  simp [hinv]

/-- Witness of C2: the rejecting model on an interaction that is above threshold. -/
theorem Integrate_invalid_process_witness :
    (rejectingModel : XSecAlgorithmI ℚ).ValidProcess (sampleInteraction 1.8 0 1 true) = false ∧
    IntegratePion (sampleConventions (3.1415927 : ℚ)) plainWrappers cornerRule
      (sampleIntegrator true true true false) rejectingModel
      (sampleInteraction 1.8 0 1 true) = 0 ∧
    IntegratePhoton (sampleConventions (3.1415927 : ℚ)) plainWrappers cornerRule
      (sampleIntegrator true true true false) rejectingModel
      (sampleInteraction 1.8 0 1 true) = 0 :=
  ⟨rfl, Integrate_invalid_process _ _ _ _ _ _ rfl⟩

/-- C3: `LoadConfig` returns normally if and only if exactly one of the flags
`IsCOHPion`, `IsCOHGamma` (absent keys read as `false`) is true; with both false or both
true it ends in `exit(78)`, a non-zero status; and the status it ends with is the same
for any two configurations and objects that agree on the two flags. -/
theorem LoadConfig_flags (cfg : Registry α) (self : COHXSecAR α) :
    ((exitStatus (LoadConfig cfg self) = none) ↔
      (GetParamDef cfg.IsCOHPion false ≠ GetParamDef cfg.IsCOHGamma false)) ∧
    ((GetParamDef cfg.IsCOHPion false = GetParamDef cfg.IsCOHGamma false) →
      LoadConfig cfg self = Except.error 78 ∧ 78 ≠ 0) ∧
    (∀ (cfg2 : Registry α) (self2 : COHXSecAR α),
      GetParamDef cfg2.IsCOHPion false = GetParamDef cfg.IsCOHPion false →
      GetParamDef cfg2.IsCOHGamma false = GetParamDef cfg.IsCOHGamma false →
      exitStatus (LoadConfig cfg2 self2) = exitStatus (LoadConfig cfg self)) := by
  refine ⟨?_, ?_, ?_⟩
  · unfold LoadConfig
    cases GetParamDef cfg.IsCOHPion false <;> cases GetParamDef cfg.IsCOHGamma false <;>
      simp [exitStatus]
  · intro h
    unfold LoadConfig
    rw [h]
    cases GetParamDef cfg.IsCOHGamma false <;> simp
  · intro cfg2 self2 hp hg
    unfold LoadConfig
    rw [hp, hg]
    cases GetParamDef cfg.IsCOHPion false <;> cases GetParamDef cfg.IsCOHGamma false <;>
      simp [exitStatus]

end IntegratorTheorems

section FormFactorTheorems

variable {α : Type} [Field α] [DecidableEq α]

theorem fdiv_of_ne_zero (a : α) {b : α} (hb : b ≠ 0) : fdiv a b = some (a / b) := by
  simp [fdiv, hb]

theorem fdiv_zero (a : α) : fdiv a (0 : α) = none := by
  simp [fdiv]

/-- The loop of `DeltaTransitionFormFactor::FormFactor` started at index `i` with the
accumulator `acc` returns `acc` plus the summands of the remaining coefficients, provided
none of their denominators vanishes. -/
theorem DeltaTransitionFormFactor.loop_eq_sum (kPi qr : α) :
    ∀ (cs : List α) (i : Nat) (acc : α),
      (∀ j, j < cs.length →
        (kPi * (((i + j : Nat) : α) + 1) + qr) * (kPi * (((i + j : Nat) : α) + 1) - qr) ≠ 0) →
      DeltaTransitionFormFactor.loop kPi qr cs i acc =
        some (acc + ∑ j in Finset.range cs.length, loopTerm kPi qr (i + j) (cs.getD j 0)) := by
  intro cs
  induction cs with
  | nil => intro i acc _; simp [DeltaTransitionFormFactor.loop]
  | cons c rest ih =>
    intro i acc h
    have h0 := h 0 (by simp)
    simp only [Nat.add_zero] at h0
    have hrest : ∀ j, j < rest.length →
        (kPi * (((i + 1 + j : Nat) : α) + 1) + qr) *
          (kPi * (((i + 1 + j : Nat) : α) + 1) - qr) ≠ 0 := by
      intro j hj
      have := h (j + 1) (by simpa using hj)
      rwa [show i + (j + 1) = i + 1 + j by omega] at this
    unfold DeltaTransitionFormFactor.loop
    simp only [fdiv_of_ne_zero _ h0]
    rw [ih (i + 1) _ hrest]
    congr 1
    rw [List.length_cons, Finset.sum_range_succ']
    simp only [List.getD_cons_succ, List.getD_cons_zero, Nat.add_zero]
    have : ∀ j, loopTerm kPi qr (i + 1 + j) (rest.getD j 0) =
        loopTerm kPi qr (i + (j + 1)) (rest.getD j 0) := by
      intro j
      rw [show i + 1 + j = i + (j + 1) by omega]
    simp only [this]
    unfold loopTerm
    ring

/-- The two loops are the same function. -/
theorem DeVriesFormFactor.loop_eq_loop (kPi qr : α) :
    ∀ (cs : List α) (i : Nat) (acc : α),
      DeVriesFormFactor.loop kPi qr cs i acc =
        DeltaTransitionFormFactor.loop kPi qr cs i acc := by
  intro cs
  induction cs with
  | nil => intro i acc; rfl
  | cons c rest ih =>
    intro i acc
    unfold DeVriesFormFactor.loop DeltaTransitionFormFactor.loop
    simp only [ih]

/-- `DeVriesFormFactor::FormFactor` and `DeltaTransitionFormFactor::FormFactor` agree on
every input, also where they have no value. -/
theorem DeVriesFormFactor.FormFactor_eq_Delta (kPi : α) (sin : α → α) (fm : α)
    (c : List α) (radius : α) (pdg : Int) (Q : α) :
    DeVriesFormFactor.FormFactor kPi sin fm ⟨c, radius⟩ Q =
      DeltaTransitionFormFactor.FormFactor kPi sin fm ⟨c, radius, pdg⟩ Q := by
  unfold DeVriesFormFactor.FormFactor DeltaTransitionFormFactor.FormFactor
  simp only [DeVriesFormFactor.loop_eq_loop]

omit [DecidableEq α] in
/-- The 0-based sum of the loop is the 1-based series of the specification. -/
theorem sum_loopTerm_eq_specSeries (kPi qr : α) (c : List α) :
    ∑ j in Finset.range c.length, loopTerm kPi qr (0 + j) (c.getD j 0) =
      specSeries kPi c qr := by
  unfold specSeries
  rw [Finset.range_eq_Ico, ← Nat.Ico_succ_right,
    ← Finset.sum_Ico_add' (fun i => (-1) ^ (i - 1) * c.getD (i - 1) 0 /
      (((i : α) * kPi + qr) * ((i : α) * kPi - qr))) 0 c.length 1]
  apply Finset.sum_congr rfl
  intro j _
  simp only [loopTerm, Nat.zero_add, Nat.add_sub_cancel, Nat.cast_add, Nat.cast_one]
  ring

/-- Away from `qr = 0` and from the poles `qr = ±iπ`, `i = 1..N`, and for a non-zero unit
constant `fm`, `DeltaTransitionFormFactor::FormFactor` has the value the specification
writes down. -/
theorem DeltaTransitionFormFactor.FormFactor_eq_spec (kPi : α) (sin : α → α) (fm : α)
    (c : List α) (radius : α) (pdg : Int) (Q : α)
    (hfm : fm ≠ 0) (hqr : Q * radius ≠ 0)
    (hpole : ∀ i ∈ Finset.Icc 1 c.length,
      Q * radius ≠ (i : α) * kPi ∧ Q * radius ≠ -((i : α) * kPi)) :
    DeltaTransitionFormFactor.FormFactor kPi sin fm ⟨c, radius, pdg⟩ Q =
      some (specFormFactor kPi sin fm c radius Q) := by
  have hden : ∀ j, j < c.length →
      (kPi * (((0 + j : Nat) : α) + 1) + Q * radius) *
        (kPi * (((0 + j : Nat) : α) + 1) - Q * radius) ≠ 0 := by
    intro j hj
    have hmem : j + 1 ∈ Finset.Icc 1 c.length := by
      rw [Finset.mem_Icc]; omega
    obtain ⟨h1, h2⟩ := hpole (j + 1) hmem
    simp only [Nat.zero_add]
    push_cast at h1 h2
    apply mul_ne_zero
    · intro h
      apply h2
      linear_combination h
    · intro h
      apply h1
      linear_combination -h
  unfold DeltaTransitionFormFactor.FormFactor
  simp only [DeltaTransitionFormFactor.loop_eq_sum kPi (Q * radius) c 0 0 hden,
    fdiv_of_ne_zero _ hfm, fdiv_of_ne_zero _ hqr, sum_loopTerm_eq_specSeries]
  unfold specFormFactor
  congr 1
  ring

/-- C5, as amended: for a non-zero unit constant `fm` and every coefficient sequence,
radius and `Q` whose `qr = Q * radius` is neither 0 nor one of the poles `iπ`, `-iπ`
(`i = 1..N`), both `FormFactor` functions return
`4π (radius/fm)^3 * (Σ_{i=1..N} (-1)^(i-1) c_i / ((iπ + qr)(iπ - qr))) * sin(qr)/qr`:
the 0-based loop computes the 1-based series, and the two functions agree. -/
theorem FormFactor_eq_series (kPi : α) (sin : α → α) (fm : α)
    (c : List α) (radius : α) (pdg : Int) (Q : α)
    (hfm : fm ≠ 0) (hqr : Q * radius ≠ 0)
    (hpole : ∀ i ∈ Finset.Icc 1 c.length,
      Q * radius ≠ (i : α) * kPi ∧ Q * radius ≠ -((i : α) * kPi)) :
    DeltaTransitionFormFactor.FormFactor kPi sin fm ⟨c, radius, pdg⟩ Q =
      some (specFormFactor kPi sin fm c radius Q) ∧
    DeVriesFormFactor.FormFactor kPi sin fm ⟨c, radius⟩ Q =
      some (specFormFactor kPi sin fm c radius Q) := by
  have h := DeltaTransitionFormFactor.FormFactor_eq_spec kPi sin fm c radius pdg Q
    hfm hqr hpole
  exact ⟨h, (DeVriesFormFactor.FormFactor_eq_Delta kPi sin fm c radius pdg Q).trans h⟩

end FormFactorTheorems

section FormFactorLimit

open Filter Topology

/-- The limit `sin x / x → 1` as `x → 0`, `x ≠ 0`. -/
theorem tendsto_sin_div_self :
    Tendsto (fun x : ℝ => Real.sin x / x) (𝓝[≠] 0) (𝓝 1) := by
  have h := hasDerivAt_iff_tendsto_slope.mp (Real.hasDerivAt_sin 0)
  rw [Real.cos_zero] at h
  refine h.congr (fun x => ?_)
  simp [slope, div_eq_inv_mul]

/-- Scaling by a non-zero radius maps the punctured neighbourhoods of 0 to themselves. -/
theorem tendsto_mul_const_punctured {r : ℝ} (hr : r ≠ 0) :
    Tendsto (fun Q : ℝ => Q * r) (𝓝[≠] 0) (𝓝[≠] 0) := by
  apply tendsto_nhdsWithin_of_tendsto_nhds_of_eventually_within
  · have : Tendsto (fun Q : ℝ => Q * r) (𝓝 0) (𝓝 (0 * r)) :=
      (continuous_id.mul continuous_const).tendsto 0
    rw [zero_mul] at this
    exact this.mono_left nhdsWithin_le_nhds
  · filter_upwards [self_mem_nhdsWithin] with Q hQ
    exact mul_ne_zero hQ hr

/-- The series of the specification is continuous in `qr` at 0, where no denominator
vanishes. -/
theorem continuousAt_specSeries (c : List ℝ) :
    ContinuousAt (fun q : ℝ => specSeries Real.pi c q) 0 := by
  unfold specSeries
  refine tendsto_finset_sum _ (fun i hi => ?_)
  show ContinuousAt (fun q : ℝ => (-1) ^ (i - 1) * c.getD (i - 1) 0 /
    (((i : ℝ) * Real.pi + q) * ((i : ℝ) * Real.pi - q))) 0
  have hi1 : 1 ≤ i := (Finset.mem_Icc.mp hi).1
  have hpos : (0 : ℝ) < (i : ℝ) * Real.pi :=
    mul_pos (by exact_mod_cast hi1) Real.pi_pos
  apply ContinuousAt.div continuousAt_const
  · fun_prop
  · simp only [add_zero, sub_zero]
    exact (mul_pos hpos hpos).ne'

/-- The closed form of the specification tends to the value the specification gives at
`Q = 0` when `Q → 0`, `Q ≠ 0`. -/
theorem tendsto_specFormFactor (fm : ℝ) (c : List ℝ) {radius : ℝ} (hr : radius ≠ 0) :
    Tendsto (fun Q : ℝ => specFormFactor Real.pi Real.sin fm c radius Q) (𝓝[≠] 0)
      (𝓝 (specFormFactorAtZero Real.pi fm c radius)) := by
  have hS : Tendsto (fun Q : ℝ => specSeries Real.pi c (Q * radius)) (𝓝[≠] 0)
      (𝓝 (specSeries Real.pi c 0)) :=
    (continuousAt_specSeries c).tendsto.comp
      ((tendsto_mul_const_punctured hr).mono_right nhdsWithin_le_nhds)
  have hsin : Tendsto (fun Q : ℝ => Real.sin (Q * radius) / (Q * radius)) (𝓝[≠] 0) (𝓝 1) :=
    tendsto_sin_div_self.comp (tendsto_mul_const_punctured hr)
  have h := (hS.const_mul (4 * Real.pi * (radius / fm) ^ 3)).mul hsin
  have hL : specFormFactorAtZero Real.pi fm c radius =
      4 * Real.pi * (radius / fm) ^ 3 * specSeries Real.pi c 0 * 1 := by
    unfold specFormFactorAtZero specSeries
    rw [mul_one]
    congr 1
    apply Finset.sum_congr rfl
    intro i _
    rw [add_zero, sub_zero, sq]
  rw [hL]
  refine h.congr (fun Q => ?_)
  unfold specFormFactor
  ring




/-- At `Q = 0` the quotient `sin(qr)/qr` is `0/0`, so `FormFactor` has no value, for
every coefficient sequence, radius and unit constant. -/
theorem DeltaTransitionFormFactor.FormFactor_zero {α : Type} [Field α] [DecidableEq α]
    (kPi : α) (sin : α → α) (fm : α) (self : DeltaTransitionFormFactor α) :
    DeltaTransitionFormFactor.FormFactor kPi sin fm self 0 = none := by
  unfold DeltaTransitionFormFactor.FormFactor
  simp only [zero_mul, fdiv_zero]
  cases DeltaTransitionFormFactor.loop kPi 0 self.fFBCs 0 0 with
  | none => rfl
  | some s => cases fdiv self.fRadius fm <;> rfl

/-- C4, as amended: `FormFactor` divides `sin(qr)` by `qr` as written, so at `Q = 0`
neither `FormFactor` function has a value (the quotient is `0/0`); the value
`4π (radius/fm)^3 * Σ_{i=1..N} (-1)^(i-1) c_i / (iπ)^2` is the limit of `FormFactor(Q)` as
`Q → 0` with `Q ≠ 0`, for every coefficient sequence, non-zero radius and non-zero unit
constant `fm`. -/
theorem FormFactor_at_zero (fm : ℝ) (c : List ℝ) (radius : ℝ) (pdg : Int)
    (hfm : fm ≠ 0) (hr : radius ≠ 0) :
    DeltaTransitionFormFactor.FormFactor Real.pi Real.sin fm ⟨c, radius, pdg⟩ 0 = none ∧
    DeVriesFormFactor.FormFactor Real.pi Real.sin fm ⟨c, radius⟩ 0 = none ∧
    ∀ ε : ℝ, 0 < ε → ∃ δ : ℝ, 0 < δ ∧ ∀ Q : ℝ, Q ≠ 0 → |Q| < δ →
      ∃ v : ℝ,
        DeltaTransitionFormFactor.FormFactor Real.pi Real.sin fm ⟨c, radius, pdg⟩ Q = some v ∧
        DeVriesFormFactor.FormFactor Real.pi Real.sin fm ⟨c, radius⟩ Q = some v ∧
        |v - specFormFactorAtZero Real.pi fm c radius| < ε := by
  refine ⟨DeltaTransitionFormFactor.FormFactor_zero _ _ _ _, ?_, ?_⟩
  · rw [DeVriesFormFactor.FormFactor_eq_Delta Real.pi Real.sin fm c radius pdg 0]
    exact DeltaTransitionFormFactor.FormFactor_zero _ _ _ _
  · intro ε hε
    obtain ⟨δ1, hδ1, hclose⟩ :=
      (Metric.tendsto_nhdsWithin_nhds.mp (tendsto_specFormFactor fm c hr)) ε hε
    have hrpos : 0 < |radius| := abs_pos.mpr hr
    refine ⟨min δ1 (Real.pi / |radius|), lt_min hδ1 (div_pos Real.pi_pos hrpos), ?_⟩
    intro Q hQ hlt
    have hQ1 : |Q| < δ1 := lt_of_lt_of_le hlt (min_le_left _ _)
    have hQ2 : |Q| < Real.pi / |radius| := lt_of_lt_of_le hlt (min_le_right _ _)
    have hqrlt : |Q * radius| < Real.pi := by
      rw [abs_mul]
      exact (lt_div_iff₀ hrpos).mp hQ2
    have hpole : ∀ i ∈ Finset.Icc 1 c.length,
        Q * radius ≠ (i : ℝ) * Real.pi ∧ Q * radius ≠ -((i : ℝ) * Real.pi) := by
      intro i hi
      have hi1 : (1 : ℝ) ≤ (i : ℝ) := by exact_mod_cast (Finset.mem_Icc.mp hi).1
      have hge : Real.pi ≤ (i : ℝ) * Real.pi := by
        nlinarith [Real.pi_pos]
      have habs := abs_lt.mp hqrlt
      constructor
      · intro h; linarith [habs.2]
      · intro h; linarith [habs.1]
    have hval := DeltaTransitionFormFactor.FormFactor_eq_spec Real.pi Real.sin fm c radius
      pdg Q hfm (mul_ne_zero hQ hr) hpole
    refine ⟨specFormFactor Real.pi Real.sin fm c radius Q, hval, ?_, ?_⟩
    · exact (DeVriesFormFactor.FormFactor_eq_Delta Real.pi Real.sin fm c radius pdg Q).trans
        hval
    · have := hclose (show Q ∈ ({0}ᶜ : Set ℝ) from hQ) (by simpa [Real.dist_eq] using hQ1)
      simpa [Real.dist_eq] using this

/-- Witness of C4: two coefficients, radius `8 fm`. -/
theorem FormFactor_at_zero_witness :
    (5.07 : ℝ) ≠ 0 ∧ (8 * 5.07 : ℝ) ≠ 0 ∧
    DeltaTransitionFormFactor.FormFactor Real.pi Real.sin 5.07
      ⟨[1, 2], 8 * 5.07, 1000060120⟩ 0 = none ∧
    DeVriesFormFactor.FormFactor Real.pi Real.sin 5.07 ⟨[1, 2], 8 * 5.07⟩ 0 = none ∧
    ∀ ε : ℝ, 0 < ε → ∃ δ : ℝ, 0 < δ ∧ ∀ Q : ℝ, Q ≠ 0 → |Q| < δ →
      ∃ v : ℝ,
        DeltaTransitionFormFactor.FormFactor Real.pi Real.sin 5.07
          ⟨[1, 2], 8 * 5.07, 1000060120⟩ Q = some v ∧
        DeVriesFormFactor.FormFactor Real.pi Real.sin 5.07 ⟨[1, 2], 8 * 5.07⟩ Q = some v ∧
        |v - specFormFactorAtZero Real.pi 5.07 [1, 2] (8 * 5.07)| < ε :=
  ⟨by norm_num, by norm_num,
    FormFactor_at_zero 5.07 [1, 2] (8 * 5.07) 1000060120 (by norm_num) (by norm_num)⟩

/-- Counterexample to C4 as stated: at `Q = 0`, for two coefficients and radius `8 fm`,
the quotient `sin(qr)/qr` is `0/0` and neither `FormFactor` has a value; in particular
neither returns `4π (radius/fm)^3 * Σ (-1)^(i-1) c_i / (iπ)^2`. -/
theorem FormFactor_zero_counterexample :
    fdiv (Real.sin (0 * (8 * 5.07))) ((0 : ℝ) * (8 * 5.07)) = none ∧
    DeltaTransitionFormFactor.FormFactor Real.pi Real.sin 5.07
        ⟨[1, 2], 8 * 5.07, 1000060120⟩ 0 = none ∧
    DeVriesFormFactor.FormFactor Real.pi Real.sin 5.07 ⟨[1, 2], 8 * 5.07⟩ 0 = none ∧
    DeltaTransitionFormFactor.FormFactor Real.pi Real.sin 5.07
        ⟨[1, 2], 8 * 5.07, 1000060120⟩ 0
      ≠ some (specFormFactorAtZero Real.pi 5.07 [1, 2] (8 * 5.07)) ∧
    DeVriesFormFactor.FormFactor Real.pi Real.sin 5.07 ⟨[1, 2], 8 * 5.07⟩ 0
      ≠ some (specFormFactorAtZero Real.pi 5.07 [1, 2] (8 * 5.07)) := by
  have hD : DeltaTransitionFormFactor.FormFactor Real.pi Real.sin 5.07
      ⟨[1, 2], 8 * 5.07, 1000060120⟩ 0 = none :=
    DeltaTransitionFormFactor.FormFactor_zero _ _ _ _
  have hV : DeVriesFormFactor.FormFactor Real.pi Real.sin 5.07 ⟨[1, 2], 8 * 5.07⟩ 0 = none := by
    rw [DeVriesFormFactor.FormFactor_eq_Delta Real.pi Real.sin 5.07 [1, 2] (8 * 5.07) 0 0]
    exact DeltaTransitionFormFactor.FormFactor_zero _ _ _ _
  refine ⟨by simp [fdiv], hD, hV, ?_, ?_⟩
  · rw [hD]; simp
  · rw [hV]; simp

/-- Witness of C5: two coefficients, radius 1, `Q = 1`. -/
theorem FormFactor_eq_series_witness :
    (5.07 : ℝ) ≠ 0 ∧ (1 : ℝ) * (1 : ℝ) ≠ 0 ∧
    (∀ i ∈ Finset.Icc 1 ([1, 2] : List ℝ).length,
      (1 : ℝ) * 1 ≠ (i : ℝ) * Real.pi ∧ (1 : ℝ) * 1 ≠ -((i : ℝ) * Real.pi)) ∧
    DeltaTransitionFormFactor.FormFactor Real.pi Real.sin 5.07 ⟨[1, 2], 1, 1000060120⟩ 1 =
      some (specFormFactor Real.pi Real.sin 5.07 [1, 2] 1 1) ∧
    DeVriesFormFactor.FormFactor Real.pi Real.sin 5.07 ⟨[1, 2], 1⟩ 1 =
      some (specFormFactor Real.pi Real.sin 5.07 [1, 2] 1 1) := by
  have hpole : ∀ i ∈ Finset.Icc 1 ([1, 2] : List ℝ).length,
      (1 : ℝ) * 1 ≠ (i : ℝ) * Real.pi ∧ (1 : ℝ) * 1 ≠ -((i : ℝ) * Real.pi) := by
    intro i hi
    have hi1 : (1 : ℝ) ≤ (i : ℝ) := by exact_mod_cast (Finset.mem_Icc.mp hi).1
    have := Real.pi_gt_three
    constructor
    · intro h; nlinarith
    · intro h; nlinarith
  exact ⟨by norm_num, by norm_num, hpole,
    FormFactor_eq_series Real.pi Real.sin 5.07 [1, 2] 1 1000060120 1 (by norm_num)
      (by norm_num) hpole⟩

/-- Counterexample to C5 as stated: `Q = -π` with radius 1 and one coefficient satisfies
`qr ≠ 0` and `qr ≠ iπ` for `i = 1..N`, yet the denominator `(π + qr)(π - qr)` of the first
term is 0, so neither `FormFactor` has a value there; in particular neither returns the
value of the formula. -/
theorem FormFactor_series_counterexample :
    (-Real.pi) * 1 ≠ 0 ∧
    (∀ i ∈ Finset.Icc 1 ([1] : List ℝ).length, (-Real.pi) * 1 ≠ (i : ℝ) * Real.pi) ∧
    (Real.pi * ((0 : ℝ) + 1) + (-Real.pi) * 1) * (Real.pi * ((0 : ℝ) + 1) - (-Real.pi) * 1) = 0 ∧
    DeltaTransitionFormFactor.FormFactor Real.pi Real.sin 5.07 ⟨[1], 1, 1000060120⟩
      (-Real.pi) = none ∧
    DeVriesFormFactor.FormFactor Real.pi Real.sin 5.07 ⟨[1], 1⟩ (-Real.pi) = none ∧
    DeltaTransitionFormFactor.FormFactor Real.pi Real.sin 5.07 ⟨[1], 1, 1000060120⟩
      (-Real.pi) ≠ some (specFormFactor Real.pi Real.sin 5.07 [1] 1 (-Real.pi)) ∧
    DeVriesFormFactor.FormFactor Real.pi Real.sin 5.07 ⟨[1], 1⟩ (-Real.pi)
      ≠ some (specFormFactor Real.pi Real.sin 5.07 [1] 1 (-Real.pi)) := by
  have hpi := Real.pi_pos
  have hD : DeltaTransitionFormFactor.FormFactor Real.pi Real.sin 5.07
      ⟨[1], 1, 1000060120⟩ (-Real.pi) = none := by
    simp [DeltaTransitionFormFactor.FormFactor, DeltaTransitionFormFactor.loop, fdiv]
  have hV : DeVriesFormFactor.FormFactor Real.pi Real.sin 5.07 ⟨[1], 1⟩ (-Real.pi) = none := by
    simp [DeVriesFormFactor.FormFactor, DeVriesFormFactor.loop, fdiv]
  refine ⟨by simp [hpi.ne'], ?_, by ring, hD, hV, ?_, ?_⟩
  · intro i hi
    have hi1 : (1 : ℝ) ≤ (i : ℝ) := by exact_mod_cast (Finset.mem_Icc.mp hi).1
    intro h
    nlinarith
  · rw [hD]; simp
  · rw [hV]; simp

end FormFactorLimit

section QuadratureTheorems

open MeasureTheory

/-- C6: on the pion path with `split-integral = true`, for a valid interaction above
threshold, the one-dimensional integral runs over `[E_min, E_max]` with
`E_min = (1 - y_max) * E` and `E_max = (1 - y_min) * E`, whatever the quadrature; and
when the integrand is the constant 1 on that interval and the quadrature returns the
exact integral, `IntegratePion` returns `(E_max - E_min) * 1e-38 * cm2`. -/
theorem IntegratePion_split_unit (K : Conventions ℝ) (G : GSLXSecFunc ℝ) (R : ROOTMath ℝ)
    (self : COHXSecAR ℝ) (model : XSecAlgorithmI ℝ) (inter : Interaction ℝ)
    (hsplit : self.fSplitIntegral = true)
    (hvalid : model.ValidProcess inter = true)
    (habove : inter.PhaseSpace.IsAboveThreshold = true)
    (hexact :
      R.Integrator
          (G.dXSec_dElep_AR_pion model (IntegratePion_interaction inter) self.fGSLIntgType
            self.fGSLRelTol self.fGSLMaxEval)
          .kADAPTIVE 1 self.fGSLRelTol 1000 2
          (IntegratePion_Elep inter).1 (IntegratePion_Elep inter).2 =
        ∫ x in (IntegratePion_Elep inter).1..(IntegratePion_Elep inter).2,
          G.dXSec_dElep_AR_pion model (IntegratePion_interaction inter) self.fGSLIntgType
            self.fGSLRelTol self.fGSLMaxEval x)
    (hunit : ∀ x ∈ Set.uIcc (IntegratePion_Elep inter).1 (IntegratePion_Elep inter).2,
      G.dXSec_dElep_AR_pion model (IntegratePion_interaction inter) self.fGSLIntgType
        self.fGSLRelTol self.fGSLMaxEval x = 1) :
    IntegratePion_Elep inter =
      ((1 - inter.PhaseSpace.Limits_kKVy.max) * inter.InitState.ProbeE_kRfLab,
       (1 - inter.PhaseSpace.Limits_kKVy.min) * inter.InitState.ProbeE_kRfLab) ∧
    (∀ R2 : ROOTMath ℝ, IntegratePion K G R2 self model inter =
      R2.Integrator
          (G.dXSec_dElep_AR_pion model (IntegratePion_interaction inter) self.fGSLIntgType
            self.fGSLRelTol self.fGSLMaxEval)
          .kADAPTIVE 1 self.fGSLRelTol 1000 2
          ((1 - inter.PhaseSpace.Limits_kKVy.max) * inter.InitState.ProbeE_kRfLab)
          ((1 - inter.PhaseSpace.Limits_kKVy.min) * inter.InitState.ProbeE_kRfLab)
        * (1e-38 * K.cm2)) ∧
    IntegratePion K G R self model inter =
      ((1 - inter.PhaseSpace.Limits_kKVy.min) * inter.InitState.ProbeE_kRfLab
        - (1 - inter.PhaseSpace.Limits_kKVy.max) * inter.InitState.ProbeE_kRfLab)
      * (1e-38 * K.cm2) := by
  refine ⟨rfl, ?_, ?_⟩
  · intro R2
    unfold IntegratePion
    simp [hvalid, habove, hsplit, IntegratePion_Elep]
  · have hval : IntegratePion K G R self model inter =
        R.Integrator
          (G.dXSec_dElep_AR_pion model (IntegratePion_interaction inter) self.fGSLIntgType
            self.fGSLRelTol self.fGSLMaxEval)
          .kADAPTIVE 1 self.fGSLRelTol 1000 2
          (IntegratePion_Elep inter).1 (IntegratePion_Elep inter).2 * (1e-38 * K.cm2) := by
      unfold IntegratePion
      simp [hvalid, habove, hsplit]
    rw [hval, hexact, intervalIntegral.integral_congr hunit, intervalIntegral.integral_const]
    simp [IntegratePion_Elep]

/-- Witness of C6: probe energy 1.8, inelasticity limits `[0, 1]`, the unit model. -/
theorem IntegratePion_split_unit_witness :
    IntegratePion_Elep (sampleInteraction (1.8 : ℝ) 0 1 true) =
      ((1 - 1) * 1.8, (1 - 0) * 1.8) ∧
    IntegratePion (sampleConventions Real.pi) plainWrappers cornerRule
        (sampleIntegrator true true true false) unitModel
        (sampleInteraction (1.8 : ℝ) 0 1 true) =
      ((1 - 0) * 1.8 - (1 - 1) * 1.8) * (1e-38 * (sampleConventions Real.pi).cm2) := by
  have h := IntegratePion_split_unit (sampleConventions Real.pi) plainWrappers cornerRule
    (sampleIntegrator true true true false) unitModel
    (sampleInteraction (1.8 : ℝ) 0 1 true) rfl rfl rfl
    (by simp [cornerRule, plainWrappers, unitModel])
    (fun _ _ => rfl)
  exact ⟨h.1, h.2.2⟩

end QuadratureTheorems

section PhotonTheorems

open MeasureTheory

/-- The exact integral of an integrand that is 1 on a four-dimensional box is the volume
of the box. -/
theorem integral_unit_box (f : List ℝ → ℝ) (a0 b0 a1 b1 a2 b2 a3 b3 : ℝ)
    (hunit : ∀ x0 ∈ Set.uIcc a0 b0, ∀ x1 ∈ Set.uIcc a1 b1, ∀ x2 ∈ Set.uIcc a2 b2,
      ∀ x3 ∈ Set.uIcc a3 b3, f [x0, x1, x2, x3] = 1) :
    (∫ x0 in a0..b0, ∫ x1 in a1..b1, ∫ x2 in a2..b2, ∫ x3 in a3..b3, f [x0, x1, x2, x3]) =
      (b0 - a0) * ((b1 - a1) * ((b2 - a2) * (b3 - a3))) := by
  have h3 : ∀ x0 ∈ Set.uIcc a0 b0, ∀ x1 ∈ Set.uIcc a1 b1, ∀ x2 ∈ Set.uIcc a2 b2,
      (∫ x3 in a3..b3, f [x0, x1, x2, x3]) = b3 - a3 := by
    intro x0 h0 x1 h1 x2 h2
    rw [intervalIntegral.integral_congr (hunit x0 h0 x1 h1 x2 h2),
      intervalIntegral.integral_const]
    simp
  have h2 : ∀ x0 ∈ Set.uIcc a0 b0, ∀ x1 ∈ Set.uIcc a1 b1,
      (∫ x2 in a2..b2, ∫ x3 in a3..b3, f [x0, x1, x2, x3]) = (b2 - a2) * (b3 - a3) := by
    intro x0 h0 x1 h1
    rw [intervalIntegral.integral_congr (h3 x0 h0 x1 h1), intervalIntegral.integral_const]
    simp
  have h1 : ∀ x0 ∈ Set.uIcc a0 b0,
      (∫ x1 in a1..b1, ∫ x2 in a2..b2, ∫ x3 in a3..b3, f [x0, x1, x2, x3]) =
        (b1 - a1) * ((b2 - a2) * (b3 - a3)) := by
    intro x0 h0
    rw [intervalIntegral.integral_congr (h2 x0 h0), intervalIntegral.integral_const]
    simp
  rw [intervalIntegral.integral_congr h1, intervalIntegral.integral_const]
  simp

/-- The value of `IntegratePhoton` in the omega parametrisation, for a valid interaction
above threshold, in terms of the quadrature routine. -/
theorem IntegratePhoton_omega_eq (K : Conventions ℝ) (G : GSLXSecFunc ℝ) (R : ROOTMath ℝ)
    (self : COHXSecAR ℝ) (model : XSecAlgorithmI ℝ) (inter : Interaction ℝ)
    (homega : self.fOmegaIntegral = true)
    (hvalid : model.ValidProcess inter = true)
    (habove : inter.PhaseSpace.IsAboveThreshold = true) :
    IntegratePhoton K G R self model inter =
      R.IntegratorMultiDim
          (G.d5Xsec_dEgdOmegaldOmegag model (IntegratePhoton_interaction inter))
          (G.IntegrationNDimTypeFromString self.fGSLIntgType) 1 self.fGSLRelTol
          self.fGSLMaxEval
          [0, -1, -1, K.kASmallNum]
          [inter.InitState.ProbeE_kRfLab, 1, 1, 2 * K.kPi - K.kASmallNum]
        * (1e-38 * K.cm2) * (2 * K.kPi) := by
  unfold IntegratePhoton
  simp [hvalid, habove, homega, IntegratePhoton_kine]

/-- C7, as amended: on the photon path with `OmegaPhaseSpace = true` (either value of
`split-integral`), for a valid interaction above threshold with probe energy `E`, the
box is `[0, E] × [-1, 1] × [-1, 1] × [ε, 2π - ε]`; when the integrand is the constant 1 on
it and the quadrature returns the exact integral, `IntegratePhoton` returns
`(E - 0) * 2 * 2 * (2π - 2ε) * 1e-38 * cm2 * 2π`, which is within the relative tolerance
`fGSLRelTol` of `(E - 0) * 2 * 2 * 2π * 1e-38 * cm2 * 2π` whenever `|ε| ≤ fGSLRelTol * π`. -/
theorem IntegratePhoton_omega_unit (K : Conventions ℝ) (G : GSLXSecFunc ℝ) (R : ROOTMath ℝ)
    (self : COHXSecAR ℝ) (model : XSecAlgorithmI ℝ) (inter : Interaction ℝ)
    (homega : self.fOmegaIntegral = true)
    (hvalid : model.ValidProcess inter = true)
    (habove : inter.PhaseSpace.IsAboveThreshold = true)
    (hexact :
      R.IntegratorMultiDim
          (G.d5Xsec_dEgdOmegaldOmegag model (IntegratePhoton_interaction inter))
          (G.IntegrationNDimTypeFromString self.fGSLIntgType) 1 self.fGSLRelTol
          self.fGSLMaxEval
          [0, -1, -1, K.kASmallNum]
          [inter.InitState.ProbeE_kRfLab, 1, 1, 2 * K.kPi - K.kASmallNum] =
        ∫ x0 in (0 : ℝ)..inter.InitState.ProbeE_kRfLab, ∫ x1 in (-1 : ℝ)..1,
          ∫ x2 in (-1 : ℝ)..1, ∫ x3 in K.kASmallNum..(2 * K.kPi - K.kASmallNum),
            G.d5Xsec_dEgdOmegaldOmegag model (IntegratePhoton_interaction inter)
              [x0, x1, x2, x3])
    (hunit : ∀ x0 ∈ Set.uIcc (0 : ℝ) inter.InitState.ProbeE_kRfLab,
      ∀ x1 ∈ Set.uIcc (-1 : ℝ) 1, ∀ x2 ∈ Set.uIcc (-1 : ℝ) 1,
      ∀ x3 ∈ Set.uIcc K.kASmallNum (2 * K.kPi - K.kASmallNum),
        G.d5Xsec_dEgdOmegaldOmegag model (IntegratePhoton_interaction inter)
          [x0, x1, x2, x3] = 1) :
    IntegratePhoton_kine K self inter =
      ([0, -1, -1, K.kASmallNum],
       [inter.InitState.ProbeE_kRfLab, 1, 1, 2 * K.kPi - K.kASmallNum]) ∧
    IntegratePhoton K G R self model inter =
      (inter.InitState.ProbeE_kRfLab - 0) * 2 * 2 * (2 * K.kPi - 2 * K.kASmallNum)
        * (1e-38 * K.cm2) * (2 * K.kPi) ∧
    (0 < K.kPi → |K.kASmallNum| ≤ self.fGSLRelTol * K.kPi →
      |IntegratePhoton K G R self model inter
          - (inter.InitState.ProbeE_kRfLab - 0) * 2 * 2 * (2 * K.kPi)
              * (1e-38 * K.cm2) * (2 * K.kPi)|
        ≤ self.fGSLRelTol *
          |(inter.InitState.ProbeE_kRfLab - 0) * 2 * 2 * (2 * K.kPi)
              * (1e-38 * K.cm2) * (2 * K.kPi)|) := by
  have hval : IntegratePhoton K G R self model inter =
      (inter.InitState.ProbeE_kRfLab - 0) * 2 * 2 * (2 * K.kPi - 2 * K.kASmallNum)
        * (1e-38 * K.cm2) * (2 * K.kPi) := by
    rw [IntegratePhoton_omega_eq K G R self model inter homega hvalid habove, hexact,
      integral_unit_box _ _ _ _ _ _ _ _ _ hunit]
    ring
  refine ⟨?_, hval, ?_⟩
  · simp [IntegratePhoton_kine, homega]
  · intro hpos hε
    rw [hval]
    have hfac : (inter.InitState.ProbeE_kRfLab - 0) * 2 * 2 * (2 * K.kPi - 2 * K.kASmallNum)
          * (1e-38 * K.cm2) * (2 * K.kPi)
        - (inter.InitState.ProbeE_kRfLab - 0) * 2 * 2 * (2 * K.kPi)
          * (1e-38 * K.cm2) * (2 * K.kPi) =
        ((inter.InitState.ProbeE_kRfLab - 0) * 2 * 2 * 2 * (1e-38 * K.cm2) * (2 * K.kPi))
          * (-K.kASmallNum) := by ring
    have hfac2 : (inter.InitState.ProbeE_kRfLab - 0) * 2 * 2 * (2 * K.kPi)
          * (1e-38 * K.cm2) * (2 * K.kPi) =
        ((inter.InitState.ProbeE_kRfLab - 0) * 2 * 2 * 2 * (1e-38 * K.cm2) * (2 * K.kPi))
          * K.kPi := by ring
    rw [hfac, hfac2]
    generalize (inter.InitState.ProbeE_kRfLab - 0) * 2 * 2 * 2 * (1e-38 * K.cm2)
      * (2 * K.kPi) = X
    rw [abs_mul X, abs_mul X, abs_neg, abs_of_pos hpos]
    calc |X| * |K.kASmallNum|
        ≤ |X| * (self.fGSLRelTol * K.kPi) := mul_le_mul_of_nonneg_left hε (abs_nonneg _)
      _ = self.fGSLRelTol * (|X| * K.kPi) := by ring

/-- On a constant integrand 1 the one-point rule returns the exact integral over a
four-dimensional box. -/
theorem cornerRule_exact_unit (f : List ℝ → ℝ) (ty : IntegrationMultiDimType)
    (abstol reltol : ℝ) (n : Nat) (a0 b0 a1 b1 a2 b2 a3 b3 : ℝ)
    (hunit : ∀ x, f x = 1) :
    cornerRule.IntegratorMultiDim f ty abstol reltol n [a0, a1, a2, a3] [b0, b1, b2, b3] =
      ∫ x0 in a0..b0, ∫ x1 in a1..b1, ∫ x2 in a2..b2, ∫ x3 in a3..b3, f [x0, x1, x2, x3] := by
  rw [integral_unit_box f a0 b0 a1 b1 a2 b2 a3 b3 (fun _ _ _ _ _ _ _ _ => hunit _)]
  simp [cornerRule, hunit]

/-- Witness of C7: probe energy 1.8, the unit model, `split-integral = true`. -/
theorem IntegratePhoton_omega_unit_witness :
    IntegratePhoton_kine (sampleConventions Real.pi) (sampleIntegrator true true false true)
        (sampleInteraction (1.8 : ℝ) 0 1 true) =
      ([0, -1, -1, 1e-6], [1.8, 1, 1, 2 * Real.pi - 1e-6]) ∧
    IntegratePhoton (sampleConventions Real.pi) plainWrappers cornerRule
        (sampleIntegrator true true false true) unitModel
        (sampleInteraction (1.8 : ℝ) 0 1 true) =
      (1.8 - 0) * 2 * 2 * (2 * Real.pi - 2 * 1e-6)
        * (1e-38 * (sampleConventions Real.pi).cm2) * (2 * Real.pi) := by
  have h := IntegratePhoton_omega_unit (sampleConventions Real.pi) plainWrappers cornerRule
    (sampleIntegrator true true false true) unitModel
    (sampleInteraction (1.8 : ℝ) 0 1 true) rfl rfl rfl
    (cornerRule_exact_unit _ _ _ _ _ _ _ _ _ _ _ _ _ (fun _ => rfl))
    (fun _ _ _ _ _ _ _ _ => rfl)
  exact ⟨h.1, h.2.1⟩

/-- Counterexample to C7 as stated: probe energy 1.8, the unit model, the default
tolerance 0.01 and a quadrature that is exact on this integrand; the result is
`1.8 * 2 * 2 * (2π - 2ε) * 1e-38 * cm2 * 2π`, about half of
`(E_max - E_min) * 2 * 2 * 2 * 2π * 1e-38 * cm2 * 2π` and so not within the relative
tolerance of it. -/
theorem IntegratePhoton_omega_counterexample :
    (cornerRule.IntegratorMultiDim
        (plainWrappers.d5Xsec_dEgdOmegaldOmegag unitModel
          (IntegratePhoton_interaction (sampleInteraction (1.8 : ℝ) 0 1 true)))
        .kVEGAS 1 0.01 4000 [0, -1, -1, 1e-6] [1.8, 1, 1, 2 * Real.pi - 1e-6] =
      ∫ x0 in (0 : ℝ)..1.8, ∫ x1 in (-1 : ℝ)..1, ∫ x2 in (-1 : ℝ)..1,
        ∫ x3 in (1e-6 : ℝ)..(2 * Real.pi - 1e-6),
          plainWrappers.d5Xsec_dEgdOmegaldOmegag unitModel
            (IntegratePhoton_interaction (sampleInteraction (1.8 : ℝ) 0 1 true))
            [x0, x1, x2, x3]) ∧
    (sampleIntegrator true true false true : COHXSecAR ℝ).fGSLRelTol *
        |(1.8 - 0) * 2 * 2 * 2 * (2 * Real.pi)
          * (1e-38 * (sampleConventions Real.pi).cm2) * (2 * Real.pi)|
      < |IntegratePhoton (sampleConventions Real.pi) plainWrappers cornerRule
            (sampleIntegrator true true false true) unitModel
            (sampleInteraction (1.8 : ℝ) 0 1 true)
          - (1.8 - 0) * 2 * 2 * 2 * (2 * Real.pi)
            * (1e-38 * (sampleConventions Real.pi).cm2) * (2 * Real.pi)| := by
  refine ⟨cornerRule_exact_unit _ _ _ _ _ _ _ _ _ _ _ _ _ (fun _ => rfl), ?_⟩
  have hval : IntegratePhoton (sampleConventions Real.pi) plainWrappers cornerRule
        (sampleIntegrator true true false true) unitModel
        (sampleInteraction (1.8 : ℝ) 0 1 true) =
      1.8 * (2 * (2 * (2 * Real.pi - 1e-6 - 1e-6)))
        * (1e-38 * (sampleConventions Real.pi).cm2) * (2 * Real.pi) := by
    rw [IntegratePhoton_omega_eq _ _ _ _ _ _ rfl rfl rfl]
    simp [cornerRule, plainWrappers, unitModel, sampleConventions, sampleInteraction,
      sampleIntegrator]
    ring_nf
    trivial
  rw [hval]
  have hc : (0 : ℝ) < 1e-38 * (sampleConventions Real.pi).cm2 := by
    simp only [sampleConventions]
    positivity
  generalize (1e-38 : ℝ) * (sampleConventions Real.pi).cm2 = c at hc ⊢
  have hpi := Real.pi_gt_three
  have hX : 0 < c * (2 * Real.pi) := by positivity
  have e1 : 1.8 * (2 * (2 * (2 * Real.pi - 1e-6 - 1e-6))) * c * (2 * Real.pi)
      - (1.8 - 0) * 2 * 2 * 2 * (2 * Real.pi) * c * (2 * Real.pi) =
      -((c * (2 * Real.pi)) * (1.8 * (8 * Real.pi + 8 * 1e-6))) := by ring
  have e2 : (1.8 - 0) * 2 * 2 * 2 * (2 * Real.pi) * c * (2 * Real.pi) =
      (c * (2 * Real.pi)) * (1.8 * (16 * Real.pi)) := by ring
  rw [e1, e2, abs_neg, abs_of_pos (by positivity), abs_of_pos (by positivity)]
  simp only [sampleIntegrator]
  nlinarith

end PhotonTheorems

section ConfigurationTheorems

variable {α : Type} [Field α]

/-- For a valid interaction above threshold, the four-dimensional branch of
`IntegratePion` hands the wrapper `d4Xsec_dEldThetaldOmegapi`, the type resolved from the
stored string and the arrays `kine_min`, `kine_max` to the quadrature. -/
theorem IntegratePion_multidim_eq (K : Conventions α) (G : GSLXSecFunc α) (R : ROOTMath α)
    (self : COHXSecAR α) (model : XSecAlgorithmI α) (inter : Interaction α)
    (hsplit : self.fSplitIntegral = false)
    (hvalid : model.ValidProcess inter = true)
    (habove : inter.PhaseSpace.IsAboveThreshold = true) :
    IntegratePion K G R self model inter =
      R.IntegratorMultiDim
          (G.d4Xsec_dEldThetaldOmegapi model (IntegratePion_interaction inter))
          (G.IntegrationNDimTypeFromString self.fGSLIntgType) 1 self.fGSLRelTol
          self.fGSLMaxEval (IntegratePion_kine K inter).1 (IntegratePion_kine K inter).2
        * (1e-38 * K.cm2) := by
  unfold IntegratePion
  simp [hvalid, habove, hsplit]

/-- For a valid interaction above threshold, the polar-angle parametrisation of
`IntegratePhoton` hands the wrapper `d4Xsec_dEgdThetaldThetagdPhig`, the type resolved
from the stored string and the arrays `kine_min`, `kine_max` to the quadrature. -/
theorem IntegratePhoton_theta_eq (K : Conventions α) (G : GSLXSecFunc α) (R : ROOTMath α)
    (self : COHXSecAR α) (model : XSecAlgorithmI α) (inter : Interaction α)
    (homega : self.fOmegaIntegral = false)
    (hvalid : model.ValidProcess inter = true)
    (habove : inter.PhaseSpace.IsAboveThreshold = true) :
    IntegratePhoton K G R self model inter =
      R.IntegratorMultiDim
          (G.d4Xsec_dEgdThetaldThetagdPhig model (IntegratePhoton_interaction inter))
          (G.IntegrationNDimTypeFromString self.fGSLIntgType) 1 self.fGSLRelTol
          self.fGSLMaxEval (IntegratePhoton_kine K self inter).1
          (IntegratePhoton_kine K self inter).2
        * (1e-38 * K.cm2) := by
  unfold IntegratePhoton
  simp [hvalid, habove, homega]

/-- When `LoadConfig` returns normally, the stored type string is the configured one
(`vegas` when the key is absent), whatever it is. -/
theorem LoadConfig_ok_fGSLIntgType (cfg : Registry α) (self obj : COHXSecAR α)
    (hok : LoadConfig cfg self = Except.ok obj) :
    obj.fGSLIntgType = GetParamDef cfg.gsl_integration_type "vegas" := by
  unfold LoadConfig at hok
  cases hp : GetParamDef cfg.IsCOHPion false <;>
    cases hg : GetParamDef cfg.IsCOHGamma false <;>
    simp [hp, hg] at hok <;> rw [← hok]

/-- For a valid interaction above threshold, the split branch of `IntegratePion` hands
the wrapper `dXSec_dElep_AR_pion` (closed over the stored type string, tolerance and
budget) and the lepton-energy limits to the one-dimensional quadrature. -/
theorem IntegratePion_split_eq (K : Conventions α) (G : GSLXSecFunc α) (R : ROOTMath α)
    (self : COHXSecAR α) (model : XSecAlgorithmI α) (inter : Interaction α)
    (hsplit : self.fSplitIntegral = true)
    (hvalid : model.ValidProcess inter = true)
    (habove : inter.PhaseSpace.IsAboveThreshold = true) :
    IntegratePion K G R self model inter =
      R.Integrator
          (G.dXSec_dElep_AR_pion model (IntegratePion_interaction inter) self.fGSLIntgType
            self.fGSLRelTol self.fGSLMaxEval)
          .kADAPTIVE 1 self.fGSLRelTol 1000 2
          (IntegratePion_Elep inter).1 (IntegratePion_Elep inter).2
        * (1e-38 * K.cm2) := by
  unfold IntegratePion
  simp [hvalid, habove, hsplit]

/-- For a valid interaction above threshold, the solid-angle parametrisation of
`IntegratePhoton` hands the wrapper `d5Xsec_dEgdOmegaldOmegag`, the type resolved from
the stored string and the arrays `kine_min`, `kine_max` to the quadrature, and multiplies
the result by `2 * kPi`. -/
theorem IntegratePhoton_omega_eq_kine (K : Conventions α) (G : GSLXSecFunc α)
    (R : ROOTMath α) (self : COHXSecAR α) (model : XSecAlgorithmI α) (inter : Interaction α)
    (homega : self.fOmegaIntegral = true)
    (hvalid : model.ValidProcess inter = true)
    (habove : inter.PhaseSpace.IsAboveThreshold = true) :
    IntegratePhoton K G R self model inter =
      R.IntegratorMultiDim
          (G.d5Xsec_dEgdOmegaldOmegag model (IntegratePhoton_interaction inter))
          (G.IntegrationNDimTypeFromString self.fGSLIntgType) 1 self.fGSLRelTol
          self.fGSLMaxEval (IntegratePhoton_kine K self inter).1
          (IntegratePhoton_kine K self inter).2
        * (1e-38 * K.cm2) * (2 * K.kPi) := by
  unfold IntegratePhoton
  simp [hvalid, habove, homega]

/-- When `LoadConfig` returns normally, exactly one of the two process flags of the
object is set. -/
theorem LoadConfig_ok_flags (cfg : Registry α) (self obj : COHXSecAR α)
    (hok : LoadConfig cfg self = Except.ok obj) :
    obj.fHasPion = !obj.fHasPhoton := by
  unfold LoadConfig at hok
  cases hp : GetParamDef cfg.IsCOHPion false <;>
    cases hg : GetParamDef cfg.IsCOHGamma false <;>
    simp [hp, hg] at hok <;> rw [← hok] <;> simp [hp, hg]

/-- C8, as amended: `LoadConfig` does not examine the `gsl-integration-type` string.
The status it ends with is the same whatever string is configured, and a normal return
stores the configured string unchanged. The string is resolved only when `Integrate`
runs, for a valid interaction above threshold: by `IntegrationNDimTypeFromString` in the
four-dimensional branch of `IntegratePion` and in both parametrisations of
`IntegratePhoton`; the split branch of `IntegratePion` hands it unresolved to the
wrapper `dXSec_dElep_AR_pion`. -/
theorem LoadConfig_integration_type (cfg : Registry α) (self : COHXSecAR α) :
    (∀ s : Option String,
      exitStatus (LoadConfig { cfg with gsl_integration_type := s } self) =
        exitStatus (LoadConfig cfg self)) ∧
    (∀ obj : COHXSecAR α, LoadConfig cfg self = Except.ok obj →
      obj.fGSLIntgType = GetParamDef cfg.gsl_integration_type "vegas" ∧
      ∀ (K : Conventions α) (G : GSLXSecFunc α) (R : ROOTMath α) (model : XSecAlgorithmI α)
        (inter : Interaction α),
        model.ValidProcess inter = true → inter.PhaseSpace.IsAboveThreshold = true →
        Integrate K G R obj model inter =
          (if obj.fHasPion then IntegratePion K G R obj model inter
           else IntegratePhoton K G R obj model inter) ∧
        IntegratePion K G R obj model inter =
          (if obj.fSplitIntegral then
            R.Integrator
                (G.dXSec_dElep_AR_pion model (IntegratePion_interaction inter)
                  (GetParamDef cfg.gsl_integration_type "vegas")
                  obj.fGSLRelTol obj.fGSLMaxEval)
                .kADAPTIVE 1 obj.fGSLRelTol 1000 2
                (IntegratePion_Elep inter).1 (IntegratePion_Elep inter).2
              * (1e-38 * K.cm2)
          else
            R.IntegratorMultiDim
                (G.d4Xsec_dEldThetaldOmegapi model (IntegratePion_interaction inter))
                (G.IntegrationNDimTypeFromString
                  (GetParamDef cfg.gsl_integration_type "vegas"))
                1 obj.fGSLRelTol obj.fGSLMaxEval
                (IntegratePion_kine K inter).1 (IntegratePion_kine K inter).2
              * (1e-38 * K.cm2)) ∧
        IntegratePhoton K G R obj model inter =
          (if obj.fOmegaIntegral then
            R.IntegratorMultiDim
                (G.d5Xsec_dEgdOmegaldOmegag model (IntegratePhoton_interaction inter))
                (G.IntegrationNDimTypeFromString
                  (GetParamDef cfg.gsl_integration_type "vegas"))
                1 obj.fGSLRelTol obj.fGSLMaxEval
                (IntegratePhoton_kine K obj inter).1 (IntegratePhoton_kine K obj inter).2
              * (1e-38 * K.cm2) * (2 * K.kPi)
          else
            R.IntegratorMultiDim
                (G.d4Xsec_dEgdThetaldThetagdPhig model (IntegratePhoton_interaction inter))
                (G.IntegrationNDimTypeFromString
                  (GetParamDef cfg.gsl_integration_type "vegas"))
                1 obj.fGSLRelTol obj.fGSLMaxEval
                (IntegratePhoton_kine K obj inter).1 (IntegratePhoton_kine K obj inter).2
              * (1e-38 * K.cm2))) := by
  refine ⟨?_, ?_⟩
  · intro s
    unfold LoadConfig
    cases GetParamDef cfg.IsCOHPion false <;> cases GetParamDef cfg.IsCOHGamma false <;>
      simp [exitStatus]
  · intro obj hok
    have hty := LoadConfig_ok_fGSLIntgType cfg self obj hok
    have hflags := LoadConfig_ok_flags cfg self obj hok
    refine ⟨hty, ?_⟩
    intro K G R model inter hvalid habove
    rw [← hty]
    refine ⟨?_, ?_, ?_⟩
    · unfold Integrate
      cases hp : obj.fHasPion
      · have hg : obj.fHasPhoton = true := by
          rw [hp] at hflags
          cases hph : obj.fHasPhoton
          · rw [hph] at hflags; simp at hflags
          · rfl
        simp [hg]
      · simp
    · cases hs : obj.fSplitIntegral
      · simpa using IntegratePion_multidim_eq K G R obj model inter hs hvalid habove
      · simpa using IntegratePion_split_eq K G R obj model inter hs hvalid habove
    · cases ho : obj.fOmegaIntegral
      · simpa using IntegratePhoton_theta_eq K G R obj model inter ho hvalid habove
      · simpa using IntegratePhoton_omega_eq_kine K G R obj model inter ho hvalid habove

/-- Counterexample to C8 as stated: a pion configuration whose `gsl-integration-type`
is no quadrature name is accepted by `LoadConfig`, which stores the string as it is. -/
theorem LoadConfig_integration_type_counterexample :
    LoadConfig
        { (emptyRegistry : Registry ℚ) with
          gsl_integration_type := some "no-such-quadrature", IsCOHPion := some true }
        (sampleIntegrator false false false false) =
      Except.ok
        { fGSLIntgType := "no-such-quadrature", fGSLRelTol := 0.01, fGSLMaxEval := 4000
          fSplitIntegral := true, fOmegaIntegral := false, fHasPion := true
          fHasPhoton := false } := by
  rfl

/-- C9, as amended: in the four-dimensional integrations of `IntegratePion` (non-split)
and `IntegratePhoton` (non-omega) the two polar-angle variables have limits `[ε, π - ε]`
and the azimuthal variable has limits `[ε, 2π - ε]`, with `ε = kASmallNum`; the lower
azimuthal limit is `ε`, not 0. These arrays are the limits handed to the quadrature. -/
theorem kine_angular_limits (K : Conventions α) (self : COHXSecAR α) (inter : Interaction α) :
    IntegratePion_kine K inter =
      ([(1 - inter.PhaseSpace.Limits_kKVy.max) * inter.InitState.ProbeE_kRfLab,
          K.kASmallNum, K.kASmallNum, K.kASmallNum],
       [(1 - inter.PhaseSpace.Limits_kKVy.min) * inter.InitState.ProbeE_kRfLab,
          K.kPi - K.kASmallNum, K.kPi - K.kASmallNum, 2 * K.kPi - K.kASmallNum]) ∧
    (self.fOmegaIntegral = false →
      IntegratePhoton_kine K self inter =
        ([0, K.kASmallNum, K.kASmallNum, K.kASmallNum],
         [inter.InitState.ProbeE_kRfLab,
            K.kPi - K.kASmallNum, K.kPi - K.kASmallNum, 2 * K.kPi - K.kASmallNum])) ∧
    (∀ (G : GSLXSecFunc α) (R : ROOTMath α) (model : XSecAlgorithmI α),
      model.ValidProcess inter = true → inter.PhaseSpace.IsAboveThreshold = true →
      (self.fSplitIntegral = false →
        IntegratePion K G R self model inter =
          R.IntegratorMultiDim
              (G.d4Xsec_dEldThetaldOmegapi model (IntegratePion_interaction inter))
              (G.IntegrationNDimTypeFromString self.fGSLIntgType) 1 self.fGSLRelTol
              self.fGSLMaxEval (IntegratePion_kine K inter).1 (IntegratePion_kine K inter).2
            * (1e-38 * K.cm2)) ∧
      (self.fOmegaIntegral = false →
        IntegratePhoton K G R self model inter =
          R.IntegratorMultiDim
              (G.d4Xsec_dEgdThetaldThetagdPhig model (IntegratePhoton_interaction inter))
              (G.IntegrationNDimTypeFromString self.fGSLIntgType) 1 self.fGSLRelTol
              self.fGSLMaxEval (IntegratePhoton_kine K self inter).1
              (IntegratePhoton_kine K self inter).2
            * (1e-38 * K.cm2))) := by
  refine ⟨rfl, ?_, ?_⟩
  · intro homega
    simp [IntegratePhoton_kine, homega]
  · intro G R model hvalid habove
    exact ⟨fun hsplit => IntegratePion_multidim_eq K G R self model inter hsplit hvalid habove,
      fun homega => IntegratePhoton_theta_eq K G R self model inter homega hvalid habove⟩

/-- Counterexample to C9 as stated: with `kASmallNum = 1E-6` the lower limit of the
azimuthal variable (the fourth one) is `1E-6`, not 0, on the pion and on the photon
path, and a quadrature that reports this limit makes `IntegratePion` non-zero. -/
theorem kine_angular_limits_counterexample :
    (IntegratePion_kine (sampleConventions (3.1415927 : ℚ))
        (sampleInteraction 1.8 0 1 true)).1.getD 3 0 = 1e-6 ∧
    (IntegratePhoton_kine (sampleConventions (3.1415927 : ℚ))
        (sampleIntegrator true false false true)
        (sampleInteraction 1.8 0 1 true)).1.getD 3 0 = 1e-6 ∧
    (1e-6 : ℚ) ≠ 0 ∧
    IntegratePion (sampleConventions (3.1415927 : ℚ)) plainWrappers (lowerLimitProbe 3)
        (sampleIntegrator false false true false) unitModel
        (sampleInteraction 1.8 0 1 true) ≠ 0 := by
  refine ⟨rfl, rfl, by norm_num, ?_⟩
  rw [IntegratePion_multidim_eq _ _ _ _ _ _ rfl rfl rfl]
  simp [lowerLimitProbe, IntegratePion_kine, sampleConventions]
  norm_num

/-- C10, as amended: on both paths the interaction handed to the function wrapper is a
copy of the caller's interaction on which the skip-process-check bit is set; the
skip-kinematic-check bit is left as the caller has it, and the copy is otherwise equal
to the caller's interaction. -/
theorem wrapper_interaction (inter : Interaction α) :
    (IntegratePion_interaction inter).TestBit .kISkipProcessChk = true ∧
    (IntegratePion_interaction inter).TestBit .kISkipKinematicChk =
      inter.TestBit .kISkipKinematicChk ∧
    IntegratePion_interaction inter = { inter with skipProcessChk := true } ∧
    (IntegratePhoton_interaction inter).TestBit .kISkipProcessChk = true ∧
    (IntegratePhoton_interaction inter).TestBit .kISkipKinematicChk =
      inter.TestBit .kISkipKinematicChk ∧
    IntegratePhoton_interaction inter = { inter with skipProcessChk := true } ∧
    (∀ (K : Conventions α) (G : GSLXSecFunc α) (R : ROOTMath α) (self : COHXSecAR α)
      (model : XSecAlgorithmI α),
      model.ValidProcess inter = true → inter.PhaseSpace.IsAboveThreshold = true →
      IntegratePion K G R self model inter =
        (if self.fSplitIntegral then
          R.Integrator
            (G.dXSec_dElep_AR_pion model { inter with skipProcessChk := true }
              self.fGSLIntgType self.fGSLRelTol self.fGSLMaxEval)
            .kADAPTIVE 1 self.fGSLRelTol 1000 2
            (IntegratePion_Elep inter).1 (IntegratePion_Elep inter).2 * (1e-38 * K.cm2)
        else
          R.IntegratorMultiDim
            (G.d4Xsec_dEldThetaldOmegapi model { inter with skipProcessChk := true })
            (G.IntegrationNDimTypeFromString self.fGSLIntgType) 1 self.fGSLRelTol
            self.fGSLMaxEval (IntegratePion_kine K inter).1 (IntegratePion_kine K inter).2
            * (1e-38 * K.cm2)) ∧
      IntegratePhoton K G R self model inter =
        (if self.fOmegaIntegral then
          R.IntegratorMultiDim
            (G.d5Xsec_dEgdOmegaldOmegag model { inter with skipProcessChk := true })
            (G.IntegrationNDimTypeFromString self.fGSLIntgType) 1 self.fGSLRelTol
            self.fGSLMaxEval (IntegratePhoton_kine K self inter).1
            (IntegratePhoton_kine K self inter).2 * (1e-38 * K.cm2) * (2 * K.kPi)
        else
          R.IntegratorMultiDim
            (G.d4Xsec_dEgdThetaldThetagdPhig model { inter with skipProcessChk := true })
            (G.IntegrationNDimTypeFromString self.fGSLIntgType) 1 self.fGSLRelTol
            self.fGSLMaxEval (IntegratePhoton_kine K self inter).1
            (IntegratePhoton_kine K self inter).2 * (1e-38 * K.cm2))) := by
  refine ⟨rfl, rfl, rfl, rfl, rfl, rfl, ?_⟩
  intro K G R self model hvalid habove
  constructor
  · unfold IntegratePion
    cases hs : self.fSplitIntegral <;>
      simp [hvalid, habove, hs, IntegratePion_interaction, Interaction.SetBit]
  · unfold IntegratePhoton
    cases ho : self.fOmegaIntegral <;>
      simp [hvalid, habove, ho, IntegratePhoton_interaction, Interaction.SetBit]

/-- Counterexample to C10 as stated: for a caller's interaction with no status bit set,
the copy handed to the wrappers does not have the skip-kinematic-check bit; wrappers that
report that bit make both integrals 0, while wrappers that report the skip-process-check
bit make the pion integral non-zero. -/
theorem wrapper_interaction_counterexample :
    (IntegratePion_interaction (sampleInteraction (1.8 : ℚ) 0 1 true)).TestBit
      .kISkipKinematicChk = false ∧
    (IntegratePhoton_interaction (sampleInteraction (1.8 : ℚ) 0 1 true)).TestBit
      .kISkipKinematicChk = false ∧
    IntegratePion (sampleConventions (3.1415927 : ℚ)) (bitProbeWrappers .kISkipKinematicChk)
      cornerRule (sampleIntegrator true true true false) unitModel
      (sampleInteraction 1.8 0 1 true) = 0 ∧
    IntegratePhoton (sampleConventions (3.1415927 : ℚ))
      (bitProbeWrappers .kISkipKinematicChk)
      cornerRule (sampleIntegrator true true false true) unitModel
      (sampleInteraction 1.8 0 1 true) = 0 ∧
    IntegratePion (sampleConventions (3.1415927 : ℚ)) (bitProbeWrappers .kISkipProcessChk)
      cornerRule (sampleIntegrator true true true false) unitModel
      (sampleInteraction 1.8 0 1 true) ≠ 0 := by
  refine ⟨rfl, rfl, ?_, ?_, ?_⟩
  · simp [IntegratePion, bitProbeWrappers, cornerRule, sampleIntegrator, unitModel,
      sampleInteraction, IntegratePion_interaction, Interaction.SetBit, Interaction.TestBit]
  · simp [IntegratePhoton, bitProbeWrappers, cornerRule, sampleIntegrator, unitModel,
      sampleInteraction, IntegratePhoton_interaction, Interaction.SetBit,
      Interaction.TestBit]
  · simp [IntegratePion, bitProbeWrappers, cornerRule, sampleIntegrator, unitModel,
      sampleInteraction, IntegratePion_interaction, Interaction.SetBit, Interaction.TestBit,
      IntegratePion_Elep, sampleConventions]
    norm_num

end ConfigurationTheorems

section LimitOrderTheorems

/-- The modelled guard constant is positive and at most 1. -/
theorem controls.kASmallNum_pos_le_one :
    (0 : ℝ) < controls.kASmallNum ∧ (controls.kASmallNum : ℝ) ≤ 1 := by
  unfold controls.kASmallNum
  constructor <;> norm_num

/-- The angular limits built from `π` and the modelled guard constant are ordered. -/
theorem angular_limits_ordered :
    (controls.kASmallNum : ℝ) ≤ Real.pi - controls.kASmallNum ∧
    (controls.kASmallNum : ℝ) ≤ 2 * Real.pi - controls.kASmallNum := by
  obtain ⟨_, h1⟩ := controls.kASmallNum_pos_le_one
  have hpi := Real.pi_gt_three
  constructor <;> linarith

/-- C11: with `kPi = π` and the guard constant `ε` at its modelled value, for every valid
interaction above threshold with probe energy `E ≥ 0` and inelasticity limits
`y_min ≤ y_max`, the limits that `IntegratePion` (split and four-dimensional) and
`IntegratePhoton` (omega and non-omega) hand to the quadrature are the pairs
`((1 - y_max) * E, (1 - y_min) * E)`, `(0, E)`, `(ε, π - ε)`, `(ε, 2π - ε)` and `(-1, 1)`,
and every pair has `min ≤ max`. -/
theorem kine_min_le_max (cm2 fm : ℝ) (G : GSLXSecFunc ℝ) (R : ROOTMath ℝ)
    (self : COHXSecAR ℝ) (model : XSecAlgorithmI ℝ) (inter : Interaction ℝ)
    (hvalid : model.ValidProcess inter = true)
    (habove : inter.PhaseSpace.IsAboveThreshold = true)
    (hE : 0 ≤ inter.InitState.ProbeE_kRfLab)
    (hy : inter.PhaseSpace.Limits_kKVy.min ≤ inter.PhaseSpace.Limits_kKVy.max) :
    (self.fSplitIntegral = true →
      IntegratePion (guardedConventions Real.pi cm2 fm) G R self model inter =
        R.Integrator
            (G.dXSec_dElep_AR_pion model (IntegratePion_interaction inter) self.fGSLIntgType
              self.fGSLRelTol self.fGSLMaxEval)
            .kADAPTIVE 1 self.fGSLRelTol 1000 2
            ((1 - inter.PhaseSpace.Limits_kKVy.max) * inter.InitState.ProbeE_kRfLab)
            ((1 - inter.PhaseSpace.Limits_kKVy.min) * inter.InitState.ProbeE_kRfLab)
          * (1e-38 * cm2) ∧
      (1 - inter.PhaseSpace.Limits_kKVy.max) * inter.InitState.ProbeE_kRfLab ≤
        (1 - inter.PhaseSpace.Limits_kKVy.min) * inter.InitState.ProbeE_kRfLab) ∧
    (self.fSplitIntegral = false →
      IntegratePion (guardedConventions Real.pi cm2 fm) G R self model inter =
        R.IntegratorMultiDim
            (G.d4Xsec_dEldThetaldOmegapi model (IntegratePion_interaction inter))
            (G.IntegrationNDimTypeFromString self.fGSLIntgType) 1 self.fGSLRelTol
            self.fGSLMaxEval
            [(1 - inter.PhaseSpace.Limits_kKVy.max) * inter.InitState.ProbeE_kRfLab,
              controls.kASmallNum, controls.kASmallNum, controls.kASmallNum]
            [(1 - inter.PhaseSpace.Limits_kKVy.min) * inter.InitState.ProbeE_kRfLab,
              Real.pi - controls.kASmallNum, Real.pi - controls.kASmallNum,
              2 * Real.pi - controls.kASmallNum]
          * (1e-38 * cm2) ∧
      List.Forall₂ (fun lo hi => lo ≤ hi)
        [(1 - inter.PhaseSpace.Limits_kKVy.max) * inter.InitState.ProbeE_kRfLab,
          controls.kASmallNum, controls.kASmallNum, controls.kASmallNum]
        [(1 - inter.PhaseSpace.Limits_kKVy.min) * inter.InitState.ProbeE_kRfLab,
          Real.pi - controls.kASmallNum, Real.pi - controls.kASmallNum,
          2 * Real.pi - controls.kASmallNum]) ∧
    (self.fOmegaIntegral = true →
      IntegratePhoton (guardedConventions Real.pi cm2 fm) G R self model inter =
        R.IntegratorMultiDim
            (G.d5Xsec_dEgdOmegaldOmegag model (IntegratePhoton_interaction inter))
            (G.IntegrationNDimTypeFromString self.fGSLIntgType) 1 self.fGSLRelTol
            self.fGSLMaxEval
            [0, -1, -1, controls.kASmallNum]
            [inter.InitState.ProbeE_kRfLab, 1, 1, 2 * Real.pi - controls.kASmallNum]
          * (1e-38 * cm2) * (2 * Real.pi) ∧
      List.Forall₂ (fun lo hi => lo ≤ hi)
        [0, -1, -1, controls.kASmallNum]
        [inter.InitState.ProbeE_kRfLab, 1, 1, 2 * Real.pi - controls.kASmallNum]) ∧
    (self.fOmegaIntegral = false →
      IntegratePhoton (guardedConventions Real.pi cm2 fm) G R self model inter =
        R.IntegratorMultiDim
            (G.d4Xsec_dEgdThetaldThetagdPhig model (IntegratePhoton_interaction inter))
            (G.IntegrationNDimTypeFromString self.fGSLIntgType) 1 self.fGSLRelTol
            self.fGSLMaxEval
            [0, controls.kASmallNum, controls.kASmallNum, controls.kASmallNum]
            [inter.InitState.ProbeE_kRfLab, Real.pi - controls.kASmallNum,
              Real.pi - controls.kASmallNum, 2 * Real.pi - controls.kASmallNum]
          * (1e-38 * cm2) ∧
      List.Forall₂ (fun lo hi => lo ≤ hi)
        [0, controls.kASmallNum, controls.kASmallNum, controls.kASmallNum]
        [inter.InitState.ProbeE_kRfLab, Real.pi - controls.kASmallNum,
          Real.pi - controls.kASmallNum, 2 * Real.pi - controls.kASmallNum]) := by
  have h1 : (1 - inter.PhaseSpace.Limits_kKVy.max) * inter.InitState.ProbeE_kRfLab ≤
      (1 - inter.PhaseSpace.Limits_kKVy.min) * inter.InitState.ProbeE_kRfLab :=
    mul_le_mul_of_nonneg_right (by linarith) hE
  obtain ⟨h2, h3⟩ := angular_limits_ordered
  have h4 : (-1 : ℝ) ≤ 1 := by norm_num
  refine ⟨fun hs => ⟨?_, h1⟩, fun hs => ⟨?_, ?_⟩, fun ho => ⟨?_, ?_⟩, fun ho => ⟨?_, ?_⟩⟩
  · rw [IntegratePion_split_eq _ G R self model inter hs hvalid habove]
    rfl
  · rw [IntegratePion_multidim_eq _ G R self model inter hs hvalid habove]
    rfl
  · exact .cons h1 (.cons h2 (.cons h2 (.cons h3 .nil)))
  · rw [IntegratePhoton_omega_eq_kine _ G R self model inter ho hvalid habove]
    simp [IntegratePhoton_kine, ho, guardedConventions]
  · exact .cons hE (.cons h4 (.cons h4 (.cons h3 .nil)))
  · rw [IntegratePhoton_theta_eq _ G R self model inter ho hvalid habove]
    simp [IntegratePhoton_kine, ho, guardedConventions]
  · exact .cons hE (.cons h2 (.cons h2 (.cons h3 .nil)))

/-- Witness of C11: probe energy 1.8, inelasticity limits `[0, 1]`, the unit model; the
four-dimensional pion limits and the omega photon limits are ordered. -/
theorem kine_min_le_max_witness :
    (0 : ℝ) ≤ (sampleInteraction (1.8 : ℝ) 0 1 true).InitState.ProbeE_kRfLab ∧
    (sampleInteraction (1.8 : ℝ) 0 1 true).PhaseSpace.Limits_kKVy.min ≤
      (sampleInteraction (1.8 : ℝ) 0 1 true).PhaseSpace.Limits_kKVy.max ∧
    List.Forall₂ (fun lo hi => lo ≤ hi)
      [(1 - 1) * (1.8 : ℝ), controls.kASmallNum, controls.kASmallNum, controls.kASmallNum]
      [(1 - 0) * (1.8 : ℝ), Real.pi - controls.kASmallNum, Real.pi - controls.kASmallNum,
        2 * Real.pi - controls.kASmallNum] ∧
    List.Forall₂ (fun lo hi => lo ≤ hi)
      [0, -1, -1, controls.kASmallNum]
      [(1.8 : ℝ), 1, 1, 2 * Real.pi - controls.kASmallNum] := by
  have hE : (0 : ℝ) ≤ (sampleInteraction (1.8 : ℝ) 0 1 true).InitState.ProbeE_kRfLab := by
    simp only [sampleInteraction]
    norm_num
  have hy : (sampleInteraction (1.8 : ℝ) 0 1 true).PhaseSpace.Limits_kKVy.min ≤
      (sampleInteraction (1.8 : ℝ) 0 1 true).PhaseSpace.Limits_kKVy.max := by
    simp only [sampleInteraction]
    norm_num
  have hpion := kine_min_le_max (5.07e13 ^ 2) 5.07 plainWrappers cornerRule
    (sampleIntegrator false true true false) unitModel
    (sampleInteraction (1.8 : ℝ) 0 1 true) rfl rfl hE hy
  have hphoton := kine_min_le_max (5.07e13 ^ 2) 5.07 plainWrappers cornerRule
    (sampleIntegrator true true false true) unitModel
    (sampleInteraction (1.8 : ℝ) 0 1 true) rfl rfl hE hy
  exact ⟨hE, hy, (hpion.2.1 rfl).2, (hphoton.2.2.1 rfl).2⟩

end LimitOrderTheorems

section NumericSettingsTheorems

variable {α : Type} [Field α]

/-- When `LoadConfig` returns normally, the stored evaluation budget is the configured
`int` cast to `unsigned int` and the stored tolerance is the configured one. -/
theorem LoadConfig_ok_numeric (cfg : Registry α) (self obj : COHXSecAR α)
    (hok : LoadConfig cfg self = Except.ok obj) :
    obj.fGSLMaxEval = (GetParamDef cfg.gsl_max_eval 4000 % 2 ^ 32).toNat ∧
    obj.fGSLRelTol = GetParamDef cfg.gsl_relative_tolerance 0.01 := by
  unfold LoadConfig at hok
  cases hp : GetParamDef cfg.IsCOHPion false <;>
    cases hg : GetParamDef cfg.IsCOHGamma false <;>
    simp [hp, hg] at hok <;> rw [← hok] <;> exact ⟨rfl, rfl⟩

/-- C12, as amended: `LoadConfig` does not validate `gsl-max-eval` or
`gsl-relative-tolerance`. The status it ends with does not depend on them; on a normal
return `fGSLMaxEval` is the configured `gsl-max-eval` (default 4000) taken mod `2^32`,
which is the configured value itself when that lies in `[0, 2^32)`, and `fGSLRelTol` is
the configured `gsl-relative-tolerance` (default 0.01) whatever its sign. -/
theorem LoadConfig_numeric_settings (cfg : Registry α) (self : COHXSecAR α) :
    (∀ (m : Option Int) (t : Option α),
      exitStatus
          (LoadConfig { cfg with gsl_max_eval := m, gsl_relative_tolerance := t } self) =
        exitStatus (LoadConfig cfg self)) ∧
    (∀ obj : COHXSecAR α, LoadConfig cfg self = Except.ok obj →
      obj.fGSLMaxEval = (GetParamDef cfg.gsl_max_eval 4000 % 2 ^ 32).toNat ∧
      obj.fGSLRelTol = GetParamDef cfg.gsl_relative_tolerance 0.01 ∧
      (0 ≤ GetParamDef cfg.gsl_max_eval 4000 → GetParamDef cfg.gsl_max_eval 4000 < 2 ^ 32 →
        (obj.fGSLMaxEval : Int) = GetParamDef cfg.gsl_max_eval 4000)) ∧
    (GetParamDef (none : Option Int) 4000 = 4000 ∧
      GetParamDef (none : Option α) 0.01 = 0.01) := by
  refine ⟨?_, ?_, rfl, rfl⟩
  · intro m t
    unfold LoadConfig
    cases GetParamDef cfg.IsCOHPion false <;> cases GetParamDef cfg.IsCOHGamma false <;>
      simp [exitStatus]
  · intro obj hok
    obtain ⟨h1, h2⟩ := LoadConfig_ok_numeric cfg self obj hok
    refine ⟨h1, h2, ?_⟩
    intro h0 hlt
    rw [h1, Int.emod_eq_of_lt h0 hlt, Int.toNat_of_nonneg h0]

/-- Counterexample to C12 as stated: pion configurations with `gsl-max-eval = -1` and
`gsl-relative-tolerance = -1`, and with `gsl-max-eval = 0` and
`gsl-relative-tolerance = 0`, are accepted; the stored budget is `2^32 - 1`, not the
configured `-1`, in the first and 0 in the second, and the stored tolerance is not
positive. -/
theorem LoadConfig_numeric_settings_counterexample :
    LoadConfig
        ({ gsl_integration_type := none, gsl_max_eval := some (-1)
           gsl_relative_tolerance := some (-1), split_integral := none
           IsCOHPion := some true, IsCOHGamma := none, OmegaPhaseSpace := none } : Registry ℚ)
        (sampleIntegrator false false false false) =
      Except.ok
        ({ fGSLIntgType := "vegas", fGSLRelTol := -1, fGSLMaxEval := 4294967295
           fSplitIntegral := true, fOmegaIntegral := false, fHasPion := true
           fHasPhoton := false } : COHXSecAR ℚ) ∧
    LoadConfig
        ({ gsl_integration_type := none, gsl_max_eval := some 0
           gsl_relative_tolerance := some 0, split_integral := none
           IsCOHPion := some true, IsCOHGamma := none, OmegaPhaseSpace := none } : Registry ℚ)
        (sampleIntegrator false false false false) =
      Except.ok
        ({ fGSLIntgType := "vegas", fGSLRelTol := 0, fGSLMaxEval := 0
           fSplitIntegral := true, fOmegaIntegral := false, fHasPion := true
           fHasPhoton := false } : COHXSecAR ℚ) := by
  exact ⟨rfl, rfl⟩

end NumericSettingsTheorems

section FormFactorSymmetry

variable {α : Type} [Field α] [DecidableEq α]

/-- The loop of `FormFactor` does not change under `qr ↦ -qr`: each denominator
`(iπ + qr)(iπ - qr)` is the same product. -/
theorem DeltaTransitionFormFactor.loop_neg (kPi qr : α) :
    ∀ (cs : List α) (i : Nat) (acc : α),
      DeltaTransitionFormFactor.loop kPi (-qr) cs i acc =
        DeltaTransitionFormFactor.loop kPi qr cs i acc := by
  intro cs
  induction cs with
  | nil => intro i acc; rfl
  | cons c rest ih =>
    intro i acc
    unfold DeltaTransitionFormFactor.loop
    have hden : (kPi * ((i : α) + 1) + -qr) * (kPi * ((i : α) + 1) - -qr) =
        (kPi * ((i : α) + 1) + qr) * (kPi * ((i : α) + 1) - qr) := by ring
    simp only [hden, ih]

/-- `DeltaTransitionFormFactor::FormFactor` is even in `Q` for an odd `sin`, also where
it has no value. -/
theorem DeltaTransitionFormFactor.FormFactor_neg (kPi : α) (sin : α → α) (fm : α)
    (hodd : ∀ x, sin (-x) = -sin x) (self : DeltaTransitionFormFactor α) (Q : α) :
    DeltaTransitionFormFactor.FormFactor kPi sin fm self (-Q) =
      DeltaTransitionFormFactor.FormFactor kPi sin fm self Q := by
  have hquot : fdiv (sin (-(Q * self.fRadius))) (-(Q * self.fRadius)) =
      fdiv (sin (Q * self.fRadius)) (Q * self.fRadius) := by
    unfold fdiv
    by_cases h : Q * self.fRadius = 0
    · simp [h]
    · simp [h, hodd]
  unfold DeltaTransitionFormFactor.FormFactor
  simp only [neg_mul, DeltaTransitionFormFactor.loop_neg, hquot]

/-- The loop of `FormFactor` has no value when one of the denominators it meets is 0. -/
theorem DeltaTransitionFormFactor.loop_eq_none (kPi qr : α) :
    ∀ (cs : List α) (i : Nat) (acc : α) (j : Nat), j < cs.length →
      (kPi * (((i + j : Nat) : α) + 1) + qr) * (kPi * (((i + j : Nat) : α) + 1) - qr) = 0 →
      DeltaTransitionFormFactor.loop kPi qr cs i acc = none := by
  intro cs
  induction cs with
  | nil => intro i acc j hj; simp at hj
  | cons c rest ih =>
    intro i acc j hj hzero
    unfold DeltaTransitionFormFactor.loop
    by_cases h0 : (kPi * ((i : α) + 1) + qr) * (kPi * ((i : α) + 1) - qr) = 0
    · simp [fdiv, h0]
    · simp only [fdiv_of_ne_zero _ h0]
      cases j with
      | zero => exact absurd (by simpa using hzero) h0
      | succ k =>
        apply ih (i + 1) _ k (by simpa using hj)
        rwa [show i + 1 + k = i + (k + 1) by omega]

/-- `FormFactor` has no value at a pole `qr = iπ` or `qr = -iπ`, `i = 1..N`. -/
theorem DeltaTransitionFormFactor.FormFactor_pole (kPi : α) (sin : α → α) (fm : α)
    (c : List α) (radius : α) (pdg : Int) (Q : α) (i : Nat)
    (hi : i ∈ Finset.Icc 1 c.length)
    (hpole : Q * radius = (i : α) * kPi ∨ Q * radius = -((i : α) * kPi)) :
    DeltaTransitionFormFactor.FormFactor kPi sin fm ⟨c, radius, pdg⟩ Q = none := by
  obtain ⟨h1, hN⟩ := Finset.mem_Icc.mp hi
  have hzero : (kPi * (((0 + (i - 1) : Nat) : α) + 1) + Q * radius) *
      (kPi * (((0 + (i - 1) : Nat) : α) + 1) - Q * radius) = 0 := by
    have hcast : (((0 + (i - 1) : Nat) : α) + 1) = (i : α) := by
      rw [Nat.zero_add]
      have : ((i - 1 : Nat) : α) + 1 = ((i - 1 + 1 : Nat) : α) := by push_cast; ring
      rw [this, Nat.sub_add_cancel h1]
    rw [hcast]
    rcases hpole with h | h <;> rw [h] <;> ring
  unfold DeltaTransitionFormFactor.FormFactor
  simp only [DeltaTransitionFormFactor.loop_eq_none kPi (Q * radius) c 0 0 (i - 1)
    (by omega) hzero]

end FormFactorSymmetry

section FormFactorEven

/-- C13: over exact reals, both `FormFactor` functions are even in the momentum
transfer, `FormFactor(-Q) = FormFactor(Q)` for every coefficient sequence, radius and
`Q` (also where neither has a value), and they have no value at the poles of the series
on both sides, `qr = iπ` and `qr = -iπ` for `i = 1..N`. -/
theorem FormFactor_even (fm : ℝ) (c : List ℝ) (radius : ℝ) (pdg : Int) (Q : ℝ) :
    DeltaTransitionFormFactor.FormFactor Real.pi Real.sin fm ⟨c, radius, pdg⟩ (-Q) =
      DeltaTransitionFormFactor.FormFactor Real.pi Real.sin fm ⟨c, radius, pdg⟩ Q ∧
    DeVriesFormFactor.FormFactor Real.pi Real.sin fm ⟨c, radius⟩ (-Q) =
      DeVriesFormFactor.FormFactor Real.pi Real.sin fm ⟨c, radius⟩ Q ∧
    (∀ i ∈ Finset.Icc 1 c.length,
      (Q * radius = (i : ℝ) * Real.pi ∨ Q * radius = -((i : ℝ) * Real.pi)) →
      DeltaTransitionFormFactor.FormFactor Real.pi Real.sin fm ⟨c, radius, pdg⟩ Q = none ∧
      DeVriesFormFactor.FormFactor Real.pi Real.sin fm ⟨c, radius⟩ Q = none) := by
  have hD := DeltaTransitionFormFactor.FormFactor_neg Real.pi Real.sin fm Real.sin_neg
    ⟨c, radius, pdg⟩ Q
  refine ⟨hD, ?_, ?_⟩
  · rw [DeVriesFormFactor.FormFactor_eq_Delta Real.pi Real.sin fm c radius pdg (-Q),
      DeVriesFormFactor.FormFactor_eq_Delta Real.pi Real.sin fm c radius pdg Q]
    exact hD
  · intro i hi hpole
    have h := DeltaTransitionFormFactor.FormFactor_pole Real.pi Real.sin fm c radius pdg Q i
      hi hpole
    exact ⟨h, (DeVriesFormFactor.FormFactor_eq_Delta Real.pi Real.sin fm c radius pdg Q).trans
      h⟩

end FormFactorEven

section MCModelTheorems

variable {P S A : Type}

/-- The pointer stored under a key, when the key is in the map. -/
theorem XSecModelMap.find_insert (m : XSecModelMap A) (e : String × Option A)
    (key : String) :
    (m.insert e).find key =
      match m.find key with
      | some x => some x
      | none => if e.1 = key then some e else none := by
  unfold XSecModelMap.insert XSecModelMap.count
  by_cases hin : (m.find e.1).isSome = true
  · simp only [hin, if_true]
    cases hk : m.find key with
    | some x => rfl
    | none =>
      by_cases hek : e.1 = key
      · rw [hek, hk] at hin
        simp at hin
      · simp [hek]
  · simp only [hin]
    simp only [XSecModelMap.find, List.find?_append] at hin ⊢
    cases hk : List.find? (fun x => x.1 == key) m with
    | some x => simp [hk]
    | none =>
      by_cases hek : e.1 = key
      · simp [hk, hek]
      · simp [hk, hek]

/-- After a sequence of registrations the entry under a key is the one the map already
had, or else the entry of the first registration that inserts this key. -/
theorem MCModel.find_register (D : Descriptions P S) (GetAlgorithm : AlgId → Option A)
    (key : String) :
    ∀ (regs : List (Registration P S)) (self : MCModel A),
      (MCModel.register D GetAlgorithm self regs).fXSecModelList.find key =
        match self.fXSecModelList.find key with
        | some x => some x
        | none => regs.findSome? fun r =>
            if r.key D = key then some (r.key D, r.alg GetAlgorithm) else none := by
  intro regs
  induction regs with
  | nil =>
    intro self
    simp only [MCModel.register, List.foldl_nil, List.findSome?_nil]
    cases self.fXSecModelList.find key <;> rfl
  | cons r rest ih =>
    intro self
    have hstep : (Registration.run D GetAlgorithm self r).fXSecModelList =
        self.fXSecModelList.insert (r.key D, r.alg GetAlgorithm) := by
      cases r <;> rfl
    have hreg : MCModel.register D GetAlgorithm self (r :: rest) =
        MCModel.register D GetAlgorithm (Registration.run D GetAlgorithm self r) rest := rfl
    rw [hreg, ih, hstep, XSecModelMap.find_insert]
    cases hk : self.fXSecModelList.find key with
    | some x => rfl
    | none =>
      by_cases hek : r.key D = key
      · simp [hek, List.findSome?_cons]
      · simp [hek, List.findSome?_cons]

/-- `XSecAlg` in terms of the two lookups. -/
theorem MCModel.XSecAlg_eq (D : Descriptions P S) (self : MCModel A)
    (interaction : InteractionSummary P S) :
    MCModel.XSecAlg D self interaction =
      match self.fXSecModelList.find
          (MCModel.BuildKey_init D interaction.GetProcessInfo interaction.GetInitialState) with
      | some iter => iter.2
      | none =>
        match self.fXSecModelList.find (MCModel.BuildKey D interaction.GetProcessInfo) with
        | some iter => iter.2
        | none => none := by
  unfold MCModel.XSecAlg XSecModelMap.count
  cases h2 : self.fXSecModelList.find
      (MCModel.BuildKey_init D interaction.GetProcessInfo interaction.GetInitialState) with
  | some x => simp [h2]
  | none =>
    cases h1 : self.fXSecModelList.find (MCModel.BuildKey D interaction.GetProcessInfo) with
    | some y => simp [h2, h1]
    | none => simp [h2, h1]

/-- C14: when distinct descriptions have distinct keys, after any sequence of
`UseXSecAlg` registrations on a freshly initialised `MCModel`, `XSecAlg` returns the
first algorithm registered for the pair `(p, s)` of the interaction if there is one,
otherwise the first registered for `p` alone, otherwise the null pointer; and a further
registration under a key already in the map leaves the model, hence every lookup, as it
was. -/
theorem MCModel.XSecAlg_precedence [DecidableEq P] [DecidableEq S]
    (D : Descriptions P S) (GetAlgorithm : AlgId → Option A)
    (hproc : ∀ p q : P, MCModel.BuildKey D p = MCModel.BuildKey D q → p = q)
    (hpair : ∀ (p q : P) (s t : S),
      MCModel.BuildKey_init D p s = MCModel.BuildKey_init D q t → p = q ∧ s = t)
    (hmixed : ∀ (p q : P) (t : S), MCModel.BuildKey D p ≠ MCModel.BuildKey_init D q t)
    (name : String) (regs : List (Registration P S))
    (interaction : InteractionSummary P S) :
    MCModel.XSecAlg D (MCModel.register D GetAlgorithm (MCModel.new name) regs) interaction =
      lookupPrecedence GetAlgorithm regs interaction.GetProcessInfo
        interaction.GetInitialState ∧
    (∀ r : Registration P S,
      (MCModel.register D GetAlgorithm (MCModel.new name) regs).fXSecModelList.count
          (r.key D) = 1 →
      MCModel.register D GetAlgorithm (MCModel.new name) (regs ++ [r]) =
        MCModel.register D GetAlgorithm (MCModel.new name) regs) := by
  constructor
  · have hnew : ∀ key : String,
        (MCModel.new name : MCModel A).fXSecModelList.find key = none := fun _ => rfl
    have hpairF : (fun r : Registration P S =>
          if r.key D = MCModel.BuildKey_init D interaction.GetProcessInfo
              interaction.GetInitialState
          then some (r.key D, r.alg GetAlgorithm) else none) =
        fun r => (match r with
          | .forProcInit proc init algid =>
            if proc = interaction.GetProcessInfo ∧ init = interaction.GetInitialState
            then some (GetAlgorithm algid) else none
          | .forProc _ _ => none).map
            (fun a => (MCModel.BuildKey_init D interaction.GetProcessInfo
              interaction.GetInitialState, a)) := by
      funext r
      cases r with
      | forProc proc algid =>
        simp [Registration.key, hmixed]
      | forProcInit proc init algid =>
        by_cases h : proc = interaction.GetProcessInfo ∧ init = interaction.GetInitialState
        · obtain ⟨h1, h2⟩ := h
          subst h1 h2
          simp [Registration.key, Registration.alg]
        · have hk : MCModel.BuildKey_init D proc init ≠
              MCModel.BuildKey_init D interaction.GetProcessInfo
                interaction.GetInitialState := fun hk => h (hpair _ _ _ _ hk)
          simp [Registration.key, hk, h]
    have hprocF : (fun r : Registration P S =>
          if r.key D = MCModel.BuildKey D interaction.GetProcessInfo
          then some (r.key D, r.alg GetAlgorithm) else none) =
        fun r => (match r with
          | .forProc proc algid =>
            if proc = interaction.GetProcessInfo then some (GetAlgorithm algid) else none
          | .forProcInit _ _ _ => none).map
            (fun a => (MCModel.BuildKey D interaction.GetProcessInfo, a)) := by
      funext r
      cases r with
      | forProc proc algid =>
        by_cases h : proc = interaction.GetProcessInfo
        · subst h
          simp [Registration.key, Registration.alg]
        · have hk : MCModel.BuildKey D proc ≠ MCModel.BuildKey D interaction.GetProcessInfo :=
            fun hk => h (hproc _ _ hk)
          simp [Registration.key, hk, h]
      | forProcInit proc init algid =>
        have hk : MCModel.BuildKey_init D proc init ≠
            MCModel.BuildKey D interaction.GetProcessInfo := fun hk => hmixed _ _ _ hk.symm
        simp [Registration.key, hk]
    rw [MCModel.XSecAlg_eq, MCModel.find_register, MCModel.find_register, hnew, hnew]
    simp only [hpairF, hprocF]
    unfold lookupPrecedence firstForProcInit firstForProc
    have hmap : ∀ (key : String) (f : Registration P S → Option (Option A)),
        List.findSome? (fun r => (f r).map (fun a => (key, a))) regs =
          (List.findSome? f regs).map (fun a => (key, a)) := by
      intro key f
      rw [List.map_findSome?]
      rfl
    rw [hmap, hmap]
    cases List.findSome? (fun r : Registration P S =>
        match r with
        | .forProcInit proc init algid =>
          if proc = interaction.GetProcessInfo ∧ init = interaction.GetInitialState
          then some (GetAlgorithm algid) else none
        | .forProc _ _ => none) regs with
    | some a => rfl
    | none =>
      cases List.findSome? (fun r : Registration P S =>
          match r with
          | .forProc proc algid =>
            if proc = interaction.GetProcessInfo then some (GetAlgorithm algid) else none
          | .forProcInit _ _ _ => none) regs with
      | some b => rfl
      | none => rfl
  · intro r hcount
    unfold MCModel.register
    rw [List.foldl_append]
    simp only [List.foldl_cons, List.foldl_nil]
    have hcount2 : (List.foldl (Registration.run D GetAlgorithm) (MCModel.new name)
        regs).fXSecModelList.count (r.key D) = 1 := hcount
    cases r with
    | forProc proc algid =>
      simp only [Registration.run, MCModel.UseXSecAlg, XSecModelMap.insert]
      simp only [Registration.key] at hcount2
      simp [hcount2]
    | forProcInit proc init algid =>
      simp only [Registration.run, MCModel.UseXSecAlg_init, XSecModelMap.insert]
      simp only [Registration.key] at hcount2
      simp [hcount2]

/-- Witness of C14: the sample registrations; the pair `(COH-CC, numu + C12)` gets the
first algorithm registered for the pair, another initial state the first registered for
the process, another process the null pointer. -/
theorem MCModel.XSecAlg_precedence_witness :
    MCModel.XSecAlg sampleDescriptions
        (MCModel.register sampleDescriptions sampleFactory (MCModel.new "sample")
          sampleRegistrations) ⟨.cohCC, .numuC12⟩ =
      lookupPrecedence sampleFactory sampleRegistrations .cohCC .numuC12 ∧
    lookupPrecedence sampleFactory sampleRegistrations .cohCC .numuC12 =
      some ⟨"genie::BergerSehgalCOHPiPXSec2015", "Default"⟩ ∧
    lookupPrecedence sampleFactory sampleRegistrations .cohCC .numuAr40 =
      some ⟨"genie::ReinSehgalCOHPiPXSec", "Default"⟩ ∧
    lookupPrecedence sampleFactory sampleRegistrations .cohNC .numuAr40 = none := by
  have hproc : ∀ p q : SampleProc,
      MCModel.BuildKey sampleDescriptions p = MCModel.BuildKey sampleDescriptions q →
        p = q := by
    intro p q; cases p <;> cases q <;> decide
  have hpair : ∀ (p q : SampleProc) (s t : SampleInit),
      MCModel.BuildKey_init sampleDescriptions p s =
        MCModel.BuildKey_init sampleDescriptions q t → p = q ∧ s = t := by
    intro p q s t; cases p <;> cases q <;> cases s <;> cases t <;> decide
  have hmixed : ∀ (p q : SampleProc) (t : SampleInit),
      MCModel.BuildKey sampleDescriptions p ≠ MCModel.BuildKey_init sampleDescriptions q t := by
    intro p q t; cases p <;> cases q <;> cases t <;> decide
  exact ⟨(MCModel.XSecAlg_precedence sampleDescriptions sampleFactory hproc hpair hmixed
    "sample" sampleRegistrations ⟨.cohCC, .numuC12⟩).1, by decide, by decide, by decide⟩

end MCModelTheorems

end genie
